import Mathlib

/-!
# Include/objimpl.h : object memory interface and GC tracking list

A shallow embedding of `src/include/objimpl.h`: the garbage-collection
support macros (lines 340-494: the `PyGC_Head` record, the generation-0 ring,
`_PyObject_GC_TRACK`, `_PyObject_GC_UNTRACK`, `_PyObject_GC_IS_TRACKED`,
`_PyObject_GC_MAY_BE_TRACKED`, `PyType_IS_GC`, `PyObject_IS_GC`), the size
macros (lines 259-278), the header initialisers and allocation macros (lines
159-310), the raw allocator macros (lines 74-141) and the weak reference
macros (lines 547-551), in both the plain build and the `WITH_PARALLEL` build.

Modelling conventions
* A pointer is a natural number (a byte address); `NULL` is `0`.
* The memory holding GC heads is a total map from addresses to `PyGC_Head`
  records, the memory holding object headers a total map from addresses to
  `PyObject` records.  Every statement of a macro is one functional update,
  executed in the order of the source, so that aliasing between `g`,
  `g->gc_prev`, `g->gc_next` and the sentinel is reproduced faithfully.
* Dereferencing a `NULL` pointer is undefined behaviour in C; it is modelled
  as the outcome `fault`, carrying the memory at that point.
* `Py_FatalError` and a failing `assert` do not return; they are outcomes
  `fatal` and `assertion`, both carrying the memory at the abort.
* A `Py_ssize_t` value is an integer; a conversion to `size_t` is a reduction
  modulo `2 ^ (8 * SIZEOF_SIZE_T)`.
* Everything the header uses but does not define is a field of an environment
  (`Env`, `Platform`, `AllocBuild`, `ObjEnv`) or, where a claim is about what
  it does, a definition whose comment starts with the words Modelled from the
  spec.
-/

namespace ObjImpl

/-! ## Data model -/

/-- The null pointer. -/
def NULL : Nat := 0

/-- The record `union _gc_head` (objimpl.h:384-391), restricted to its `gc`
member: two links and the `gc_refs` word (a `Py_ssize_t`). -/
structure PyGC_Head where
  gc_next : Nat
  gc_prev : Nat
  gc_refs : Int
deriving DecidableEq, Repr

/-- The fields of `PyTypeObject` this header reads. `tp_is_gc` is a function
pointer: `none` is `NULL`, and a call returns a C `int`. -/
structure PyTypeObject where
  tp_basicsize : Int
  tp_itemsize : Int
  tp_flags : Nat
  tp_weaklistoffset : Int
  tp_is_gc : Option (Nat → Int)

/-- Build configuration and the externally defined macros the header relies on.
* `WITH_PARALLEL`, `NDEBUG`: preprocessor switches;
* `SIZEOF_PyGC_Head`: `sizeof(PyGC_Head)` in bytes;
* `Py_TPFLAGS_HAVE_GC`: the flag mask tested by `PyType_IS_GC`;
* `Py_PXCTX`: whether the calling thread runs in the parallel context;
* `Py_ISPX o`: whether the object at `o` is a parallel-context object;
* `Py_TYPE o`: the type object the header of `o` points to;
* `PyTuple_CheckExact o`: whether `o` is exactly a tuple. -/
structure Env where
  WITH_PARALLEL : Bool
  NDEBUG : Bool
  SIZEOF_PyGC_Head : Nat
  Py_TPFLAGS_HAVE_GC : Nat
  Py_PXCTX : Bool
  Py_ISPX : Nat → Bool
  Py_TYPE : Nat → PyTypeObject
  PyTuple_CheckExact : Nat → Bool

/-- The part of the process state the tracking macros touch: the memory of GC
heads and the global `_PyGC_generation0` (objimpl.h:393), the address of the
generation-0 sentinel. -/
structure GCState where
  mem : Nat → PyGC_Head
  _PyGC_generation0 : Nat

/-- The ways a macro body can end: it returns, it calls `Py_FatalError`, an
`assert` fails, or it dereferences a null GC-head pointer. Each carries the
memory at that point. `Py_FatalError` is declared outside this header; that
it aborts the process instead of returning is taken from the spec, section
4.4 and section 7. -/
inductive Outcome where
  | returned (s : GCState)
  | fatal (msg : String) (s : GCState)
  | assertion (s : GCState)
  | fault (s : GCState)

/-- The memory an outcome leaves behind. -/
def Outcome.state : Outcome → GCState
  | .returned s => s
  | .fatal _ s => s
  | .assertion s => s
  | .fault s => s

/-- Whether control came back to the caller. -/
def Outcome.isReturned : Outcome → Bool
  | .returned _ => true
  | _ => false

/-- Whether the outcome is a `Py_FatalError` abort. -/
def Outcome.isFatal : Outcome → Bool
  | .fatal _ _ => true
  | _ => false

/-- Whether the outcome is a failed `assert`. -/
def Outcome.isAssertion : Outcome → Bool
  | .assertion _ => true
  | _ => false

/-- Whether the outcome is a null-pointer dereference. -/
def Outcome.isFault : Outcome → Bool
  | .fault _ => true
  | _ => false

/-- Constant of objimpl.h:402. -/
def _PyGC_REFS_UNTRACKED : Int := -2
/-- Constant of objimpl.h:403. -/
def _PyGC_REFS_REACHABLE : Int := -3
/-- Constant of objimpl.h:404. -/
def _PyGC_REFS_TENTATIVELY_UNREACHABLE : Int := -4

/-- The store `p->gc.gc_next = v`. -/
def GCState.set_gc_next (s : GCState) (p v : Nat) : GCState :=
  { s with mem := fun a => if a = p then { s.mem p with gc_next := v } else s.mem a }

/-- The store `p->gc.gc_prev = v`. -/
def GCState.set_gc_prev (s : GCState) (p v : Nat) : GCState :=
  { s with mem := fun a => if a = p then { s.mem p with gc_prev := v } else s.mem a }

/-- The store `p->gc.gc_refs = v`. -/
def GCState.set_gc_refs (s : GCState) (p : Nat) (v : Int) : GCState :=
  { s with mem := fun a => if a = p then { s.mem p with gc_refs := v } else s.mem a }

/-! ## The macros -/

/-- Macro `_Py_AS_GC(o)` (objimpl.h:395-400): `(PyGC_Head *)(o) - 1` in the plain
build; in the `WITH_PARALLEL` build `NULL` for a parallel-context object.
Pointer arithmetic is in bytes; an address below `sizeof(PyGC_Head)` cannot
be an object and yields `NULL`. -/
def _Py_AS_GC (E : Env) (o : Nat) : Nat :=
  if E.WITH_PARALLEL then
    (if E.Py_ISPX o then NULL else o - E.SIZEOF_PyGC_Head)
  else o - E.SIZEOF_PyGC_Head

/-- The message passed to `Py_FatalError` by the track macro. -/
def alreadyTrackedMsg : String := "GC object already tracked"

/-- The body shared by `_PyObject_GC_TRACK` of the plain build
(objimpl.h:409-418) and `__PyObject_GC_TRACK` of the `WITH_PARALLEL` build
(objimpl.h:445-455); the two texts are identical. -/
def __PyObject_GC_TRACK (E : Env) (s : GCState) (o : Nat) : Outcome :=
  let g := _Py_AS_GC E o
  -- if (g->gc.gc_refs != _PyGC_REFS_UNTRACKED) Py_FatalError(...)
  if g = NULL then .fault s else
  if (s.mem g).gc_refs ≠ _PyGC_REFS_UNTRACKED then .fatal alreadyTrackedMsg s else
  -- g->gc.gc_refs = _PyGC_REFS_REACHABLE
  let s1 := s.set_gc_refs g _PyGC_REFS_REACHABLE
  -- g->gc.gc_next = _PyGC_generation0
  let s2 := s1.set_gc_next g s1._PyGC_generation0
  -- g->gc.gc_prev = _PyGC_generation0->gc.gc_prev
  if s2._PyGC_generation0 = NULL then .fault s2 else
  let s3 := s2.set_gc_prev g (s2.mem s2._PyGC_generation0).gc_prev
  -- g->gc.gc_prev->gc.gc_next = g
  if (s3.mem g).gc_prev = NULL then .fault s3 else
  let s4 := s3.set_gc_next (s3.mem g).gc_prev g
  -- _PyGC_generation0->gc.gc_prev = g
  .returned (s4.set_gc_prev s4._PyGC_generation0 g)

/-- The body shared by `_PyObject_GC_UNTRACK` of the plain build
(objimpl.h:424-431) and `__PyObject_GC_UNTRACK` of the `WITH_PARALLEL` build
(objimpl.h:457-465). The `assert` is compiled out when `NDEBUG` is defined. -/
def __PyObject_GC_UNTRACK (E : Env) (s : GCState) (o : Nat) : Outcome :=
  let g := _Py_AS_GC E o
  if g = NULL then .fault s else
  -- assert(g->gc.gc_refs != _PyGC_REFS_UNTRACKED)
  if E.NDEBUG = false ∧ (s.mem g).gc_refs = _PyGC_REFS_UNTRACKED then .assertion s else
  -- g->gc.gc_refs = _PyGC_REFS_UNTRACKED
  let s1 := s.set_gc_refs g _PyGC_REFS_UNTRACKED
  -- g->gc.gc_prev->gc.gc_next = g->gc.gc_next
  if (s1.mem g).gc_prev = NULL then .fault s1 else
  let s2 := s1.set_gc_next (s1.mem g).gc_prev (s1.mem g).gc_next
  -- g->gc.gc_next->gc.gc_prev = g->gc.gc_prev
  if (s2.mem g).gc_next = NULL then .fault s2 else
  let s3 := s2.set_gc_prev (s2.mem g).gc_next (s2.mem g).gc_prev
  -- g->gc.gc_next = NULL
  .returned (s3.set_gc_next g NULL)

/-- Macro `__PyObject_GC_IS_TRACKED(o)` (objimpl.h:467-468), also the text of the
plain build's `_PyObject_GC_IS_TRACKED` (objimpl.h:434-435). `none` is the
dereference of a null GC head. -/
def __PyObject_GC_IS_TRACKED (E : Env) (s : GCState) (o : Nat) : Option Bool :=
  if _Py_AS_GC E o = NULL then none
  else some (decide ((s.mem (_Py_AS_GC E o)).gc_refs ≠ _PyGC_REFS_UNTRACKED))

/-- Macro `_PyObject_GC_TRACK(o)`: the body itself in the plain build; in the
`WITH_PARALLEL` build `if (!Py_ISPX(o)) __PyObject_GC_TRACK(o)`
(objimpl.h:480-482). -/
def _PyObject_GC_TRACK (E : Env) (s : GCState) (o : Nat) : Outcome :=
  if E.WITH_PARALLEL then
    (if !E.Py_ISPX o then __PyObject_GC_TRACK E s o else .returned s)
  else __PyObject_GC_TRACK E s o

/-- Macro `_PyObject_GC_UNTRACK(o)`: the body itself in the plain build; in the
`WITH_PARALLEL` build `if (!Py_ISPX(o)) __PyObject_GC_UNTRACK(o)`
(objimpl.h:484-486). -/
def _PyObject_GC_UNTRACK (E : Env) (s : GCState) (o : Nat) : Outcome :=
  if E.WITH_PARALLEL then
    (if !E.Py_ISPX o then __PyObject_GC_UNTRACK E s o else .returned s)
  else __PyObject_GC_UNTRACK E s o

/-- Macro `_PyObject_GC_IS_TRACKED(o)`: objimpl.h:434-435 in the plain build,
`(Py_ISPX(o) ? (0) : __PyObject_GC_IS_TRACKED(o))` (objimpl.h:488-489) in the
`WITH_PARALLEL` build. -/
def _PyObject_GC_IS_TRACKED (E : Env) (s : GCState) (o : Nat) : Option Bool :=
  if E.WITH_PARALLEL then
    (if E.Py_ISPX o then some false else __PyObject_GC_IS_TRACKED E s o)
  else __PyObject_GC_IS_TRACKED E s o

/-- Modelled from the spec: `PyType_HasFeature` is declared in object.h, which
is not part of the sources at hand; the spec calls the tested bit the type's
`supportsGC` flag. The test is `(t->tp_flags & f) != 0`. -/
def PyType_HasFeature (t : PyTypeObject) (f : Nat) : Bool :=
  (t.tp_flags &&& f) != 0

/-- Macro `__PyType_IS_GC(t)` (objimpl.h:361), also the text of the plain build's
`PyType_IS_GC` (objimpl.h:352). -/
def __PyType_IS_GC (E : Env) (t : PyTypeObject) : Bool :=
  PyType_HasFeature t E.Py_TPFLAGS_HAVE_GC

/-- Macro `PyType_IS_GC(t)`: objimpl.h:352 in the plain build,
`(Py_PXCTX ? (0) : __PyType_IS_GC(t))` (objimpl.h:367) in the `WITH_PARALLEL`
build. -/
def PyType_IS_GC (E : Env) (t : PyTypeObject) : Bool :=
  if E.WITH_PARALLEL then (if E.Py_PXCTX then false else __PyType_IS_GC E t)
  else __PyType_IS_GC E t

/-- Macro `__PyObject_IS_GC(o)` (objimpl.h:364-365), also the text of the plain
build's `PyObject_IS_GC` (objimpl.h:355-356). Note that it goes through
`PyType_IS_GC`, not `__PyType_IS_GC`. -/
def __PyObject_IS_GC (E : Env) (o : Nat) : Bool :=
  PyType_IS_GC E (E.Py_TYPE o) &&
    (match (E.Py_TYPE o).tp_is_gc with
     | none => true
     | some f => f o != 0)

/-- Macro `PyObject_IS_GC(o)`: objimpl.h:355-356 in the plain build,
`(Py_ISPX(o) ? (0) : __PyObject_IS_GC(o))` (objimpl.h:368) in the
`WITH_PARALLEL` build. -/
def PyObject_IS_GC (E : Env) (o : Nat) : Bool :=
  if E.WITH_PARALLEL then (if E.Py_ISPX o then false else __PyObject_IS_GC E o)
  else __PyObject_IS_GC E o

/-- Macro `__PyObject_GC_MAY_BE_TRACKED(obj)` (objimpl.h:470-472), also the text of
the plain build's `_PyObject_GC_MAY_BE_TRACKED` (objimpl.h:439-441). The
operators `&&` and `||` short-circuit, so the GC head is read only for an
exact tuple that passed `PyObject_IS_GC`. -/
def __PyObject_GC_MAY_BE_TRACKED (E : Env) (s : GCState) (o : Nat) : Option Bool :=
  if PyObject_IS_GC E o then
    (if !E.PyTuple_CheckExact o then some true else _PyObject_GC_IS_TRACKED E s o)
  else some false

/-- Macro `_PyObject_GC_MAY_BE_TRACKED(o)`: objimpl.h:439-441 in the plain build,
`(Py_ISPX(o) ? (0) : __PyObject_GC_MAY_BE_TRACKED(o))` (objimpl.h:491-492) in
the `WITH_PARALLEL` build. -/
def _PyObject_GC_MAY_BE_TRACKED (E : Env) (s : GCState) (o : Nat) : Option Bool :=
  if E.WITH_PARALLEL then
    (if E.Py_ISPX o then some false else __PyObject_GC_MAY_BE_TRACKED E s o)
  else __PyObject_GC_MAY_BE_TRACKED E s o

/-! ## The generation-0 ring as the collector sees it -/

/-- Follow `gc_next` from `cur` until `stop` is met, collecting the heads
passed on the way; `none` when `fuel` steps were not enough. -/
def walkNext (s : GCState) (stop : Nat) : Nat → Nat → Option (List Nat)
  | 0, _ => none
  | fuel + 1, cur =>
    if cur = stop then some []
    else (walkNext s stop fuel (s.mem cur).gc_next).map (fun r => cur :: r)

/-- Follow `gc_prev` from `cur` until `stop` is met. -/
def walkPrev (s : GCState) (stop : Nat) : Nat → Nat → Option (List Nat)
  | 0, _ => none
  | fuel + 1, cur =>
    if cur = stop then some []
    else (walkPrev s stop fuel (s.mem cur).gc_prev).map (fun r => cur :: r)

/-- The members of the generation-0 ring, sentinel excluded, in `gc_next`
order: the walk a collector does, `for (gc = head->gc_next; gc != head; ...)`. -/
def ringMembers (s : GCState) (fuel : Nat) : Option (List Nat) :=
  walkNext s s._PyGC_generation0 fuel (s.mem s._PyGC_generation0).gc_next

/-- The members of the ring in `gc_prev` order. -/
def ringMembersRev (s : GCState) (fuel : Nat) : Option (List Nat) :=
  walkPrev s s._PyGC_generation0 fuel (s.mem s._PyGC_generation0).gc_prev

/-- The number of tracked heads found by the `gc_next` walk. -/
def ringLength (s : GCState) (fuel : Nat) : Option Nat :=
  (ringMembers s fuel).map List.length

/-- The empty ring: `sentinel.next == sentinel.prev == sentinel`. -/
def EmptyRing (s : GCState) : Prop :=
  (s.mem s._PyGC_generation0).gc_next = s._PyGC_generation0 ∧
  (s.mem s._PyGC_generation0).gc_prev = s._PyGC_generation0

/-- Head `a` is followed by the heads of `l`, in order, and then by `b`: each
`gc_next` points to the following head and each `gc_prev` back. -/
def Linked (s : GCState) : Nat → List Nat → Nat → Prop
  | a, [], b => (s.mem a).gc_next = b ∧ (s.mem b).gc_prev = a
  | a, x :: xs, b => (s.mem a).gc_next = x ∧ (s.mem x).gc_prev = a ∧ Linked s x xs b

/-- A well-formed generation-0 ring with members `l` (sentinel excluded, in
`gc_next` order): the sentinel is a real address, the members are distinct
real addresses other than the sentinel, and the links run from the sentinel
through `l` back to the sentinel. -/
structure WellFormedRing (s : GCState) (l : List Nat) : Prop where
  sentinel_ne_null : s._PyGC_generation0 ≠ NULL
  nodup : (s._PyGC_generation0 :: l).Nodup
  null_not_mem : NULL ∉ l
  linked : Linked s s._PyGC_generation0 l s._PyGC_generation0

/-- The state a process starts in: an empty generation-0 ring, and every GC
head other than the sentinel in the state machine's initial state Untracked. -/
structure InitialState (s : GCState) : Prop where
  sentinel_ne_null : s._PyGC_generation0 ≠ NULL
  empty : EmptyRing s
  untracked : ∀ g, g ≠ NULL → g ≠ s._PyGC_generation0 →
    (s.mem g).gc_refs = _PyGC_REFS_UNTRACKED

/-- The data-model invariant of the spec, section 3: the ring is well formed
with members `l`, and a GC head other than the sentinel is Untracked exactly
when it is not a member. -/
structure TrackingInv (s : GCState) (l : List Nat) : Prop where
  ring : WellFormedRing s l
  untracked_iff : ∀ g, g ≠ NULL → g ≠ s._PyGC_generation0 →
    ((s.mem g).gc_refs = _PyGC_REFS_UNTRACKED ↔ g ∉ l)

/-- A call of one of the two tracking macros on the object at address `o`. -/
inductive Call where
  | track (o : Nat)
  | untrack (o : Nat)
deriving DecidableEq, Repr

/-- Execute one call. -/
def exec (E : Env) (s : GCState) : Call → Outcome
  | .track o => _PyObject_GC_TRACK E s o
  | .untrack o => _PyObject_GC_UNTRACK E s o

/-- Execute a sequence of calls; the first call that does not return ends the
run with its outcome. -/
def run (E : Env) : GCState → List Call → Outcome
  | s, [] => .returned s
  | s, c :: cs =>
    match exec E s c with
    | .returned s1 => run E s1 cs
    | out => out

/-- The precondition of a call, read off the code's own predicate: Track is
called on an object for which `_PyObject_GC_IS_TRACKED` is false, Untrack on
one for which it is true; the object is not the sentinel itself. -/
def CallPre (E : Env) (s : GCState) : Call → Prop
  | .track o => _PyObject_GC_IS_TRACKED E s o = some false ∧
      _Py_AS_GC E o ≠ s._PyGC_generation0
  | .untrack o => _PyObject_GC_IS_TRACKED E s o = some true ∧
      _Py_AS_GC E o ≠ s._PyGC_generation0

/-- Every call of the sequence meets its precondition in the state it is made
in. -/
def Respects (E : Env) : GCState → List Call → Prop
  | _, [] => True
  | s, c :: cs => CallPre E s c ∧ Respects E (exec E s c).state cs

instance decCallPre (E : Env) (s : GCState) (c : Call) : Decidable (CallPre E s c) := by
  cases c <;> unfold CallPre <;> infer_instance

instance decRespects (E : Env) : (s : GCState) → (cs : List Call) → Decidable (Respects E s cs)
  | _, [] => isTrue trivial
  | s, c :: cs =>
    have := decRespects E (exec E s c).state cs
    by unfold Respects; infer_instance

/-- Splice of the spec, section 4.4, in the order the spec writes it:
`trackState = Reachable; obj.prev = sentinel.prev; obj.next = sentinel;
sentinel.prev.next = obj; sentinel.prev = obj`. -/
def specTrack (s : GCState) (obj : Nat) : GCState :=
  let s1 := s.set_gc_refs obj _PyGC_REFS_REACHABLE
  let s2 := s1.set_gc_prev obj (s1.mem s1._PyGC_generation0).gc_prev
  let s3 := s2.set_gc_next obj s2._PyGC_generation0
  let s4 := s3.set_gc_next (s3.mem s3._PyGC_generation0).gc_prev obj
  s4.set_gc_prev s4._PyGC_generation0 obj

/-- Unlink of the spec, section 4.4, in the order the spec writes it:
`obj.prev.next = obj.next; obj.next.prev = obj.prev; trackState = Untracked;`
clear `obj.next`. -/
def specUntrack (s : GCState) (obj : Nat) : GCState :=
  let s1 := s.set_gc_next (s.mem obj).gc_prev (s.mem obj).gc_next
  let s2 := s1.set_gc_prev (s1.mem obj).gc_next (s1.mem obj).gc_prev
  let s3 := s2.set_gc_refs obj _PyGC_REFS_UNTRACKED
  s3.set_gc_next obj NULL

/-- What Track leaves behind, field by field: `t` is the tail of the ring
before the call. -/
structure TrackedFrom (s s1 : GCState) (g : Nat) : Prop where
  gen0 : s1._PyGC_generation0 = s._PyGC_generation0
  next : ∀ x, (s1.mem x).gc_next =
    if x = (s.mem s._PyGC_generation0).gc_prev then g
    else if x = g then s._PyGC_generation0 else (s.mem x).gc_next
  prev : ∀ x, (s1.mem x).gc_prev =
    if x = s._PyGC_generation0 then g
    else if x = g then (s.mem s._PyGC_generation0).gc_prev else (s.mem x).gc_prev
  refs : ∀ x, (s1.mem x).gc_refs =
    if x = g then _PyGC_REFS_REACHABLE else (s.mem x).gc_refs

/-- What Untrack leaves behind, field by field. -/
structure UntrackedFrom (s s1 : GCState) (g : Nat) : Prop where
  gen0 : s1._PyGC_generation0 = s._PyGC_generation0
  next : ∀ x, (s1.mem x).gc_next =
    if x = g then NULL
    else if x = (s.mem g).gc_prev then (s.mem g).gc_next else (s.mem x).gc_next
  prev : ∀ x, (s1.mem x).gc_prev =
    if x = (s.mem g).gc_next then (s.mem g).gc_prev else (s.mem x).gc_prev
  refs : ∀ x, (s1.mem x).gc_refs =
    if x = g then _PyGC_REFS_UNTRACKED else (s.mem x).gc_refs

instance decLinked (s : GCState) : (a : Nat) → (l : List Nat) → (b : Nat) →
    Decidable (Linked s a l b)
  | a, [], b => by unfold Linked; infer_instance
  | a, x :: xs, b =>
    have := decLinked s x xs b
    by unfold Linked; infer_instance

/-- A plain-build environment used in examples: `sizeof(PyGC_Head)` is 32,
assertions are enabled. -/
def envPlain : Env where
  WITH_PARALLEL := false
  NDEBUG := false
  SIZEOF_PyGC_Head := 32
  Py_TPFLAGS_HAVE_GC := 2 ^ 14
  Py_PXCTX := false
  Py_ISPX := fun _ => false
  Py_TYPE := fun _ => ⟨16, 0, 2 ^ 14, 0, none⟩
  PyTuple_CheckExact := fun _ => false

/-- The plain build with assertions compiled out. -/
def envRelease : Env := { envPlain with NDEBUG := true }

/-- A `WITH_PARALLEL` environment in which the object at address 4096 is a
parallel-context object and the calling thread is in the parallel context. -/
def envParallel : Env :=
  { envPlain with WITH_PARALLEL := true, Py_PXCTX := true, Py_ISPX := fun o => o == 4096 }

/-- An initial state: sentinel at address 1000, empty ring, everything else
Untracked with null links. -/
def state0 : GCState where
  mem := fun a => if a = 1000 then ⟨1000, 1000, 0⟩ else ⟨0, 0, -2⟩
  _PyGC_generation0 := 1000

/-- The state after tracking the objects at 132 and 232 from `state0`, in the
plain build: the ring holds the heads 100 and 200. -/
def state2 : GCState := (run envPlain state0 [.track 132, .track 232]).state

/-- As `state2`, after a collector marked the head 200 tentatively
unreachable. -/
def state2T : GCState := state2.set_gc_refs 200 _PyGC_REFS_TENTATIVELY_UNREACHABLE

/-- The state after tracking 132 and 232 and untracking 232 again, in a build
without assertions: head 200 is Untracked, its `gc_next` is null and its
`gc_prev` still holds the address of head 100. -/
def state3 : GCState :=
  (run envRelease state0 [.track 132, .track 232, .untrack 232]).state

/-! ## Layout calculator (objimpl.h:259-278) -/

/-- The platform constants the size macros depend on: `SIZEOF_VOID_P`, the
width of a pointer in bytes, and `SIZEOF_SIZE_T`, the width of `size_t` in
bytes. -/
structure Platform where
  SIZEOF_VOID_P : Nat
  SIZEOF_SIZE_T : Nat

/-- One more than `SIZE_MAX`: the modulus of `size_t` arithmetic. -/
def SIZE_MODULUS (P : Platform) : Int := ((2 ^ (8 * P.SIZEOF_SIZE_T) : Nat) : Int)

/-- Conversion of an integer value to `size_t`. -/
def size_t (P : Platform) (x : Int) : Int := x % SIZE_MODULUS P

/-- The preprocessor test of objimpl.h:271-273: the header is rejected with
`#error` unless `((SIZEOF_VOID_P - 1) & SIZEOF_VOID_P) == 0`. -/
def buildAccepted (P : Platform) : Bool :=
  ((P.SIZEOF_VOID_P - 1) &&& P.SIZEOF_VOID_P) == 0

/-- Modelled from the spec: `_Py_SIZE_ROUND_UP` is defined in pymacro.h, which
is not among the sources. The spec, section 4.2, gives
`roundUp(x, a) = ((x + a - 1) / a) * a`; the comment at objimpl.h:261 says the
value is a `size_t`, so both operands are converted to `size_t` and the sum
and the product are taken modulo `SIZE_MODULUS`. -/
def _Py_SIZE_ROUND_UP (P : Platform) (n a : Int) : Int :=
  size_t P (size_t P (size_t P n + size_t P a - 1) / size_t P a * size_t P a)

/-- Macro `_PyObject_SIZE(typeobj)` (objimpl.h:259). -/
def _PyObject_SIZE (t : PyTypeObject) : Int := t.tp_basicsize

/-- Macro `_PyObject_VAR_SIZE(typeobj, nitems)` (objimpl.h:275-278). The
argument of the round-up is computed in `Py_ssize_t`; an overflow there is
undefined behaviour and not modelled, the sum is the exact integer. -/
def _PyObject_VAR_SIZE (P : Platform) (t : PyTypeObject) (nitems : Int) : Int :=
  _Py_SIZE_ROUND_UP P (t.tp_basicsize + nitems * t.tp_itemsize) P.SIZEOF_VOID_P

/-- The round-up of the spec, section 4.2, over the integers:
`roundUp(x, a) = ((x + a - 1) / a) * a`. -/
def specRoundUp (x a : Int) : Int := ((x + a - 1) / a) * a

/-- The size formula of the spec, section 4.2:
`VariableSize(type, n) = roundUp(type.basicSize + n * type.itemSize, pointerWidth)`. -/
def specVariableSize (basicSize itemSize n pointerWidth : Int) : Int :=
  specRoundUp (basicSize + n * itemSize) pointerWidth

/-- A 64-bit platform: pointers and `size_t` are 8 bytes wide. -/
def platform64 : Platform := ⟨8, 8⟩

/-- The type of the spec's example: `basicSize = 16`, `itemSize = 8`. -/
def exampleVarType : PyTypeObject := ⟨16, 8, 0, 0, none⟩

/-! ## Weak reference support (objimpl.h:547-551) -/

/-- Macro `PyType_SUPPORTS_WEAKREFS(t)` (objimpl.h:548). -/
def PyType_SUPPORTS_WEAKREFS (t : PyTypeObject) : Bool :=
  decide (t.tp_weaklistoffset > 0)

/-- Macro `PyObject_GET_WEAKREFS_LISTPTR(o)` (objimpl.h:550-551): the object's
address, as a `char *`, plus `Py_TYPE(o)->tp_weaklistoffset`. The result is an
integer because nothing keeps a negative offset from leaving the address
range. -/
def PyObject_GET_WEAKREFS_LISTPTR (E : Env) (o : Nat) : Int :=
  (o : Int) + (E.Py_TYPE o).tp_weaklistoffset

/-! ## Raw allocator (objimpl.h:74-141) -/

/-- The three families of allocator functions the `PyObject_MALLOC`,
`PyObject_REALLOC` and `PyObject_FREE` macros can resolve to:
`PyObject_Malloc/Realloc/Free`, `_PyObject_DebugMalloc/Realloc/Free` and
`PyMem_MALLOC/REALLOC/FREE`. -/
inductive RawFamily where
  | pymalloc
  | pymallocDebug
  | pymem
deriving DecidableEq, Repr

/-- The preprocessor switches of objimpl.h:103-138. -/
structure AllocBuild where
  WITH_PYMALLOC : Bool
  PYMALLOC_DEBUG : Bool

/-- Macro `PyObject_MALLOC` (objimpl.h:120, 128, 134). -/
def PyObject_MALLOC_family (B : AllocBuild) : RawFamily :=
  if B.WITH_PYMALLOC then (if B.PYMALLOC_DEBUG then .pymallocDebug else .pymalloc)
  else .pymem

/-- Macro `PyObject_REALLOC` (objimpl.h:122, 129, 135). -/
def PyObject_REALLOC_family (B : AllocBuild) : RawFamily :=
  if B.WITH_PYMALLOC then (if B.PYMALLOC_DEBUG then .pymallocDebug else .pymalloc)
  else .pymem

/-- Macro `PyObject_FREE` (objimpl.h:124, 130, 136). -/
def PyObject_FREE_family (B : AllocBuild) : RawFamily :=
  if B.WITH_PYMALLOC then (if B.PYMALLOC_DEBUG then .pymallocDebug else .pymalloc)
  else .pymem

/-- The state of the raw allocator: the live blocks, each with its address and
the number of bytes asked for, the lowest address never handed out, and the
end of the arena. -/
structure AllocState where
  live : List (Nat × Nat)
  brk : Nat
  limit : Nat
deriving DecidableEq, Repr

/-- A well-formed allocator state: no block starts at the null address and
every live block lies below the lowest address never handed out. -/
structure AllocState.WF (a : AllocState) : Prop where
  brk_pos : 0 < a.brk
  below : ∀ b ∈ a.live, 0 < b.1 ∧ b.1 + max b.2 1 ≤ a.brk

/-- Modelled from the spec: `PyObject_Malloc` is only declared in the header
(objimpl.h:97), its body is not among the sources. Spec, section 4.1:
`Malloc(n) -> pointer|null`; `Malloc(0)` returns a unique non-null pointer
that never aliases another live block; no diagnostic on failure. The model
hands out the next free address, reserving at least one byte, and returns
null, leaving the state alone, when the arena is exhausted. -/
def PyObject_Malloc (a : AllocState) (n : Nat) : Nat × AllocState :=
  if a.brk + max n 1 ≤ a.limit then
    (a.brk, { a with live := (a.brk, n) :: a.live, brk := a.brk + max n 1 })
  else (NULL, a)

/-- Modelled from the spec: `PyObject_Free` is only declared in the header
(objimpl.h:99). Spec, section 4.1: `Free(null)` is a no-op; otherwise the
block is no longer live. -/
def PyObject_Free (a : AllocState) (p : Nat) : AllocState :=
  if p = NULL then a else { a with live := a.live.filter (fun b => b.1 != p) }

/-- Modelled from the spec: `PyObject_Realloc` is only declared in the header
(objimpl.h:98). Spec, section 4.1: `Realloc(null, n)` behaves exactly as
`Malloc(n)`; `Realloc(p, 0)` with `p` non-null returns non-null and does not
free `p`; otherwise a new block is handed out and the old one released, or
null is returned and the old block kept. The contents of blocks are not part
of the allocator state. -/
def PyObject_Realloc (a : AllocState) (p n : Nat) : Nat × AllocState :=
  if p = NULL then PyObject_Malloc a n
  else if n = 0 then (p, a)
  else if (PyObject_Malloc a n).1 = NULL then (NULL, a)
  else ((PyObject_Malloc a n).1, PyObject_Free (PyObject_Malloc a n).2 p)

/-- An allocator state with room for 4096 bytes from address 64 on. -/
def alloc0 : AllocState := ⟨[], 64, 4160⟩

/-- An exhausted allocator state. -/
def allocFull : AllocState := ⟨[(64, 4096)], 4160, 4160⟩

/-! ## Object header initialisation and allocation (objimpl.h:159-310) -/

/-- The object header as this header touches it: reference count, type
pointer, item count (variable-size objects), and the fields the
`WITH_PARALLEL` build adds, which `_PyObject_InitHead` (objimpl.h:212-231)
writes. -/
structure PyObject where
  ob_refcnt : Int
  ob_type : Nat
  ob_size : Int
  is_px : Nat
  px : Nat
  slist_entry_Next : Nat
  px_flags : Nat
  srw_lock : Nat
  event : Nat
  orig_type : Nat
  _ob_next : Nat
  _ob_prev : Nat
deriving DecidableEq, Repr

/-- The state the initialisers and allocators work on: the object headers by
address, and the raw allocator. -/
structure ObjState where
  obj : Nat → PyObject
  heap : AllocState

/-- The ways an initialiser or allocator can end: it returns a pointer, an
`assert` fails, or it dereferences a null pointer. -/
inductive ObjOutcome where
  | returned (p : Nat) (st : ObjState)
  | assertion (st : ObjState)
  | fault (st : ObjState)

/-- The state an outcome leaves behind. -/
def ObjOutcome.state : ObjOutcome → ObjState
  | .returned _ st => st
  | .assertion st => st
  | .fault st => st

/-- The pointer returned, if control came back. -/
def ObjOutcome.value : ObjOutcome → Option Nat
  | .returned p _ => some p
  | _ => none

/-- Everything the initialisers and allocators use from outside the header.
* the fields of `Env` and of `Platform`;
* `Py_TRACE_REFS`: preprocessor switch tested at objimpl.h:224;
* `_Py_NOT_PARALLEL`, `Py_PXFLAGS_ISPY`: the constants `_PyObject_InitHead`
  stores;
* `contextFlagConcurrent`: the value that marks a parallel-context object;
* `allocBuild`: the allocator switches;
* `typeAt p`: the type object at address `p`;
* `_PxObject_New`, `_PxObject_NewVar`: the parallel-context allocators,
  declared at objimpl.h:197-198. -/
structure ObjEnv extends Env, Platform where
  Py_TRACE_REFS : Bool
  _Py_NOT_PARALLEL : Nat
  Py_PXFLAGS_ISPY : Nat
  contextFlagConcurrent : Nat
  allocBuild : AllocBuild
  typeAt : Nat → PyTypeObject
  _PxObject_New : ObjState → Nat → ObjOutcome
  _PxObject_NewVar : ObjState → Nat → Int → ObjOutcome

/-- Apply `f` to the header at `p`. -/
def ObjState.modify (st : ObjState) (p : Nat) (f : PyObject → PyObject) : ObjState :=
  { st with obj := fun a => if a = p then f (st.obj p) else st.obj a }

/-- Modelled from the spec: `_Py_NewReference` is defined in object.h, which is
not among the sources. Spec, section 4.3: Init sets the refcount to 1, which
establishes the object's first live reference. -/
def _Py_NewReference (st : ObjState) (op : Nat) : ObjState :=
  st.modify op (fun h => { h with ob_refcnt := 1 })

/-- Modelled from the spec: `_PxObject_Init` is only declared in the header
(objimpl.h:192). Spec, section 4.3: under the concurrent context Init sets the
type field, sets the refcount to 1 and initialises the ConcurrentObjectState
to `contextFlag = concurrent`, `lock = null`, `event = null`,
`listEntry = null`, `originalType = null`. -/
def _PxObject_Init (X : ObjEnv) (st : ObjState) (op tp : Nat) : ObjOutcome :=
  if op = NULL then .fault st else
  .returned op (st.modify op (fun h =>
    { h with ob_type := tp, ob_refcnt := 1, is_px := X.contextFlagConcurrent,
             srw_lock := NULL, event := NULL, slist_entry_Next := NULL,
             orig_type := NULL }))

/-- Modelled from the spec: `_PxObject_InitVar` is only declared in the header
(objimpl.h:193-195). Spec, section 4.3: InitVar does what Init does and
additionally sets `itemCount = n`. -/
def _PxObject_InitVar (X : ObjEnv) (st : ObjState) (op tp : Nat) (n : Int) : ObjOutcome :=
  if op = NULL then .fault st else
  _PxObject_Init X (st.modify op (fun h => { h with ob_size := n })) op tp

/-- Function `_PyObject_InitHead(op)`: the empty macro of objimpl.h:184 in the
plain build, the inline function of objimpl.h:212-231 in the `WITH_PARALLEL`
build. -/
def _PyObject_InitHead (X : ObjEnv) (st : ObjState) (op : Nat) : ObjOutcome :=
  if X.WITH_PARALLEL then
    if op = NULL then .fault st else
    -- assert(Py_TYPE(op))
    if X.NDEBUG = false ∧ (st.obj op).ob_type = NULL then .assertion st else
    -- op->is_px = _Py_NOT_PARALLEL
    let s1 := st.modify op (fun h => { h with is_px := X._Py_NOT_PARALLEL })
    -- op->px = _Py_NOT_PARALLEL
    let s2 := s1.modify op (fun h => { h with px := X._Py_NOT_PARALLEL })
    -- op->slist_entry.Next = NULL
    let s3 := s2.modify op (fun h => { h with slist_entry_Next := NULL })
    -- op->px_flags = Py_PXFLAGS_ISPY
    let s4 := s3.modify op (fun h => { h with px_flags := X.Py_PXFLAGS_ISPY })
    -- op->srw_lock = NULL
    let s5 := s4.modify op (fun h => { h with srw_lock := NULL })
    -- op->event = NULL
    let s6 := s5.modify op (fun h => { h with event := NULL })
    -- op->orig_type = NULL
    let s7 := s6.modify op (fun h => { h with orig_type := NULL })
    -- #ifdef Py_TRACE_REFS ... #else ... #endif
    if X.Py_TRACE_REFS then
      let s8 := s7.modify op (fun h => { h with _ob_next := NULL })
      .returned op (s8.modify op (fun h => { h with _ob_prev := NULL }))
    else
      let s8 := s7.modify op (fun h => { h with _ob_next := X._Py_NOT_PARALLEL })
      .returned op (s8.modify op (fun h => { h with _ob_prev := X._Py_NOT_PARALLEL }))
  else .returned op st

/-- `PyObject_INIT(op, typeobj)`: the macro of objimpl.h:179-180 in the plain
build, the inline function of objimpl.h:233-242 in the `WITH_PARALLEL` build.
`Px_RETURN(e)` is defined outside the header; by its name and its use it
returns `e` when the thread is in the parallel context (`Py_PXCTX`) and falls
through otherwise, the dispatch of the spec, section 4.5. -/
def PyObject_INIT (X : ObjEnv) (st : ObjState) (op tp : Nat) : ObjOutcome :=
  if X.WITH_PARALLEL then
    -- Px_RETURN(_PxObject_Init(op, tp))
    if X.Py_PXCTX then _PxObject_Init X st op tp else
    -- Py_TYPE(op) = tp
    if op = NULL then .fault st else
    let s1 := st.modify op (fun h => { h with ob_type := tp })
    -- _PyObject_InitHead(op)
    match _PyObject_InitHead X s1 op with
    | .returned _ s2 =>
      -- _Py_NewReference(op); return op
      .returned op (_Py_NewReference s2 op)
    | out => out
  else
    -- ( Py_TYPE(op) = (typeobj), _Py_NewReference((PyObject *)(op)), (op) )
    if op = NULL then .fault st else
    .returned op (_Py_NewReference (st.modify op (fun h => { h with ob_type := tp })) op)

/-- `PyObject_INIT_VAR(op, typeobj, size)`: the macro of objimpl.h:181-182 in
the plain build, the inline function of objimpl.h:244-254 in the
`WITH_PARALLEL` build. -/
def PyObject_INIT_VAR (X : ObjEnv) (st : ObjState) (op tp : Nat) (n : Int) : ObjOutcome :=
  if X.WITH_PARALLEL then
    -- Px_RETURN(_PxObject_InitVar(op, tp, n))
    if X.Py_PXCTX then _PxObject_InitVar X st op tp n else
    -- Py_SIZE(op) = n
    if op = NULL then .fault st else
    let s0 := st.modify op (fun h => { h with ob_size := n })
    -- Py_TYPE(op) = tp
    let s1 := s0.modify op (fun h => { h with ob_type := tp })
    -- _PyObject_InitHead((PyObject *)op)
    match _PyObject_InitHead X s1 op with
    | .returned _ s2 =>
      -- _Py_NewReference((PyObject *)op); return op
      .returned op (_Py_NewReference s2 op)
    | out => out
  else
    -- ( Py_SIZE(op) = (size), PyObject_INIT((op), (typeobj)) )
    if op = NULL then .fault st else
    PyObject_INIT X (st.modify op (fun h => { h with ob_size := n })) op tp

/-- Modelled from the spec: `PyObject_Init` is only declared in the header
(objimpl.h:165), its body is in object.c. Spec, section 4.3 and section 7: it
is the function form of Init, and an allocation failure reaches the caller of
New as null, so a null block is passed through untouched. -/
def PyObject_Init (X : ObjEnv) (st : ObjState) (op tp : Nat) : ObjOutcome :=
  if op = NULL then .returned NULL st else PyObject_INIT X st op tp

/-- Modelled from the spec: `PyObject_InitVar` is only declared in the header
(objimpl.h:166-167), its body is in object.c. It is the function form of
InitVar; a null block is passed through untouched. -/
def PyObject_InitVar (X : ObjEnv) (st : ObjState) (op tp : Nat) (n : Int) : ObjOutcome :=
  if op = NULL then .returned NULL st else PyObject_INIT_VAR X st op tp n

/-- Macro `PyObject_MALLOC(n)` (objimpl.h:120, 128, 134): a call of the
allocation function of the family the build selects, with the size converted
to `size_t`. All three families are absent from the sources and follow the
one model of the spec's contract. -/
def PyObject_MALLOC (X : ObjEnv) (st : ObjState) (n : Int) : Nat × ObjState :=
  match PyObject_MALLOC_family X.allocBuild with
  | .pymalloc | .pymallocDebug | .pymem =>
    ((PyObject_Malloc st.heap (size_t X.toPlatform n).toNat).1,
      { st with heap := (PyObject_Malloc st.heap (size_t X.toPlatform n).toNat).2 })

/-- `PyObject_NEW(type, typeobj)`: the macro of objimpl.h:281-283 in the plain
build; in the `WITH_PARALLEL` build the macro of objimpl.h:307 over the inline
function `_PyObject_NEW` of objimpl.h:290-296. -/
def PyObject_NEW (X : ObjEnv) (st : ObjState) (tp : Nat) : ObjOutcome :=
  if X.WITH_PARALLEL then
    -- Px_RETURN(_PxObject_New(tp))
    if X.Py_PXCTX then X._PxObject_New st tp else
    -- return PyObject_Init((PyObject *)PyObject_MALLOC(_PyObject_SIZE(tp)), tp)
    if tp = NULL then .fault st else
    PyObject_Init X (PyObject_MALLOC X st (_PyObject_SIZE (X.typeAt tp))).2
      (PyObject_MALLOC X st (_PyObject_SIZE (X.typeAt tp))).1 tp
  else
    if tp = NULL then .fault st else
    PyObject_Init X (PyObject_MALLOC X st (_PyObject_SIZE (X.typeAt tp))).2
      (PyObject_MALLOC X st (_PyObject_SIZE (X.typeAt tp))).1 tp

/-- `PyObject_NEW_VAR(type, typeobj, n)`: the macro of objimpl.h:285-288 in
the plain build; in the `WITH_PARALLEL` build the macro of objimpl.h:308 over
the inline function `_PyObject_NEW_VAR` of objimpl.h:298-306. -/
def PyObject_NEW_VAR (X : ObjEnv) (st : ObjState) (tp : Nat) (n : Int) : ObjOutcome :=
  if X.WITH_PARALLEL then
    -- Px_RETURN(_PxObject_NewVar(tp, n))
    if X.Py_PXCTX then X._PxObject_NewVar st tp n else
    -- op = (PyObject *)PyObject_MALLOC(_PyObject_VAR_SIZE(tp, n));
    -- return (PyVarObject *)PyObject_InitVar((PyVarObject*)op, tp, n)
    if tp = NULL then .fault st else
    PyObject_InitVar X (PyObject_MALLOC X st (_PyObject_VAR_SIZE X.toPlatform (X.typeAt tp) n)).2
      (PyObject_MALLOC X st (_PyObject_VAR_SIZE X.toPlatform (X.typeAt tp) n)).1 tp n
  else
    if tp = NULL then .fault st else
    PyObject_InitVar X (PyObject_MALLOC X st (_PyObject_VAR_SIZE X.toPlatform (X.typeAt tp) n)).2
      (PyObject_MALLOC X st (_PyObject_VAR_SIZE X.toPlatform (X.typeAt tp) n)).1 tp n

/-- The functions the allocation macros of objimpl.h:172-175, 204-210 and
506-518 call. -/
inductive Callee where
  | _PyObject_New
  | _PyObject_NewVar
  | _PxObject_New
  | _PxObject_NewVar
  | _PyObject_GC_New
  | _PyObject_GC_NewVar
deriving DecidableEq, Repr

/-- What a macro expansion evaluates to: the result of its call, or an
integer. -/
inductive MacroValue where
  | callResult
  | integer (v : Int)
deriving DecidableEq, Repr

/-- The expansion of an allocation macro, read off its text: the function
called, the arguments inside the call's parentheses, and the value of the
whole expression. -/
structure MacroCall where
  callee : Callee
  args : List Int
  value : MacroValue
deriving DecidableEq, Repr

/-- Macro `PyObject_NewVar(type, typeobj, n)`. Plain build (objimpl.h:174-175):
`( (type *) _PyObject_NewVar((typeobj), (n)) )`. `WITH_PARALLEL` build
(objimpl.h:208-210): each branch of the conditional is
`((type *)_PxObject_NewVar((typeobj)), (n))`, respectively with
`_PyObject_NewVar`: the call's parentheses close after `(typeobj)`, and the
comma operator makes `(n)` the value of the branch. -/
def PyObject_NewVar (E : Env) (typeobj : Nat) (n : Int) : MacroCall :=
  if E.WITH_PARALLEL then
    (if E.Py_PXCTX then ⟨._PxObject_NewVar, [(typeobj : Int)], .integer n⟩
     else ⟨._PyObject_NewVar, [(typeobj : Int)], .integer n⟩)
  else ⟨._PyObject_NewVar, [(typeobj : Int), n], .callResult⟩

/-- Macro `PyObject_GC_NewVar(type, typeobj, n)`. Plain build
(objimpl.h:508-509): `( (type *) _PyObject_GC_NewVar((typeobj), (n)) )`.
`WITH_PARALLEL` build (objimpl.h:516-518): the branches are
`((type *) _PxObject_NewVar((typeobj), (n)))` and
`((type *) _PyObject_GC_NewVar((typeobj), (n)))`. -/
def PyObject_GC_NewVar (E : Env) (typeobj : Nat) (n : Int) : MacroCall :=
  if E.WITH_PARALLEL then
    (if E.Py_PXCTX then ⟨._PxObject_NewVar, [(typeobj : Int), n], .callResult⟩
     else ⟨._PyObject_GC_NewVar, [(typeobj : Int), n], .callResult⟩)
  else ⟨._PyObject_GC_NewVar, [(typeobj : Int), n], .callResult⟩

/-- Macro `PyObject_New(type, typeobj)`. Plain build (objimpl.h:172-173):
`( (type *) _PyObject_New(typeobj) )`. `WITH_PARALLEL` build
(objimpl.h:204-206): the branches are `((type *)_PxObject_New(typeobj))` and
`((type *)_PyObject_New(typeobj))`. -/
def PyObject_New (E : Env) (typeobj : Nat) : MacroCall :=
  if E.WITH_PARALLEL then
    (if E.Py_PXCTX then ⟨._PxObject_New, [(typeobj : Int)], .callResult⟩
     else ⟨._PyObject_New, [(typeobj : Int)], .callResult⟩)
  else ⟨._PyObject_New, [(typeobj : Int)], .callResult⟩

/-- A header with recognisable garbage in every field. -/
def garbageHeader : PyObject := ⟨77, 5, 9, 11, 12, 13, 14, 15, 16, 17, 18, 19⟩

/-- A state in which every header is garbage and the arena is fresh. -/
def objState0 : ObjState := ⟨fun _ => garbageHeader, alloc0⟩

/-- The plain build on a 64-bit platform; the type object at address 512 is
the spec's example type (`basicSize = 16`, `itemSize = 8`). -/
def objEnvPlain : ObjEnv where
  toEnv := envPlain
  toPlatform := platform64
  Py_TRACE_REFS := false
  _Py_NOT_PARALLEL := 3735928559
  Py_PXFLAGS_ISPY := 1
  contextFlagConcurrent := 3735928558
  allocBuild := ⟨true, false⟩
  typeAt := fun _ => exampleVarType
  _PxObject_New := fun st _ => .returned NULL st
  _PxObject_NewVar := fun st _ _ => .returned NULL st

/-- The `WITH_PARALLEL` build with the calling thread in the sequential
context. -/
def objEnvParallelSeq : ObjEnv :=
  { objEnvPlain with WITH_PARALLEL := true, Py_PXCTX := false }

/-- The `WITH_PARALLEL` build with the calling thread in the parallel
context. -/
def objEnvParallelPx : ObjEnv :=
  { objEnvPlain with WITH_PARALLEL := true, Py_PXCTX := true }

/-! ## Tracking order -/

/-- The GC head a call is about. -/
def callHead (E : Env) : Call → Nat
  | .track o => _Py_AS_GC E o
  | .untrack o => _Py_AS_GC E o

/-- The bookkeeping a reader of the call sequence does to know which heads
are tracked and since which call: an entry `(g, i)` says head `g` was linked
by the Track call at position `i`. A Track call on an object with a GC head
moves its head to the end with the call's position; a Track call on an object
without one (a parallel-context object) changes nothing; an Untrack call
removes the head. -/
def recordCall (E : Env) (h : List (Nat × Nat)) (i : Nat) : Call → List (Nat × Nat)
  | .track o =>
    if _Py_AS_GC E o = NULL then h
    else h.filter (fun p => p.1 != _Py_AS_GC E o) ++ [(_Py_AS_GC E o, i)]
  | .untrack o => h.filter (fun p => p.1 != _Py_AS_GC E o)

/-- The bookkeeping over a sequence of calls whose first call has position
`i`. -/
def trackingLog (E : Env) : List (Nat × Nat) → Nat → List Call → List (Nat × Nat)
  | h, _, [] => h
  | h, i, c :: cs => trackingLog E (recordCall E h i c) (i + 1) cs

/-- The tracked heads after a sequence of calls from the empty ring, each with
the position of the Track call that linked it, in the order of these
positions. -/
def trackingOrder (E : Env) (cs : List Call) : List (Nat × Nat) :=
  trackingLog E [] 0 cs

/-! ## Stores and the closed form of the two macro bodies -/

@[simp]
theorem next_set_gc_next (s : GCState) (p v a : Nat) :
    ((s.set_gc_next p v).mem a).gc_next = if a = p then v else (s.mem a).gc_next := by
  unfold GCState.set_gc_next; dsimp only; split_ifs with h <;> simp [h]

@[simp]
theorem prev_set_gc_next (s : GCState) (p v a : Nat) :
    ((s.set_gc_next p v).mem a).gc_prev = (s.mem a).gc_prev := by
  unfold GCState.set_gc_next; dsimp only; split_ifs with h <;> simp [h]

@[simp]
theorem refs_set_gc_next (s : GCState) (p v a : Nat) :
    ((s.set_gc_next p v).mem a).gc_refs = (s.mem a).gc_refs := by
  unfold GCState.set_gc_next; dsimp only; split_ifs with h <;> simp [h]

@[simp]
theorem next_set_gc_prev (s : GCState) (p v a : Nat) :
    ((s.set_gc_prev p v).mem a).gc_next = (s.mem a).gc_next := by
  unfold GCState.set_gc_prev; dsimp only; split_ifs with h <;> simp [h]

@[simp]
theorem prev_set_gc_prev (s : GCState) (p v a : Nat) :
    ((s.set_gc_prev p v).mem a).gc_prev = if a = p then v else (s.mem a).gc_prev := by
  unfold GCState.set_gc_prev; dsimp only; split_ifs with h <;> simp [h]

@[simp]
theorem refs_set_gc_prev (s : GCState) (p v a : Nat) :
    ((s.set_gc_prev p v).mem a).gc_refs = (s.mem a).gc_refs := by
  unfold GCState.set_gc_prev; dsimp only; split_ifs with h <;> simp [h]

@[simp]
theorem next_set_gc_refs (s : GCState) (p a : Nat) (v : Int) :
    ((s.set_gc_refs p v).mem a).gc_next = (s.mem a).gc_next := by
  unfold GCState.set_gc_refs; dsimp only; split_ifs with h <;> simp [h]

@[simp]
theorem prev_set_gc_refs (s : GCState) (p a : Nat) (v : Int) :
    ((s.set_gc_refs p v).mem a).gc_prev = (s.mem a).gc_prev := by
  unfold GCState.set_gc_refs; dsimp only; split_ifs with h <;> simp [h]

@[simp]
theorem refs_set_gc_refs (s : GCState) (p a : Nat) (v : Int) :
    ((s.set_gc_refs p v).mem a).gc_refs = if a = p then v else (s.mem a).gc_refs := by
  unfold GCState.set_gc_refs; dsimp only; split_ifs with h <;> simp [h]

@[simp]
theorem gen0_set_gc_next (s : GCState) (p v : Nat) :
    (s.set_gc_next p v)._PyGC_generation0 = s._PyGC_generation0 := rfl

@[simp]
theorem gen0_set_gc_prev (s : GCState) (p v : Nat) :
    (s.set_gc_prev p v)._PyGC_generation0 = s._PyGC_generation0 := rfl

@[simp]
theorem gen0_set_gc_refs (s : GCState) (p : Nat) (v : Int) :
    (s.set_gc_refs p v)._PyGC_generation0 = s._PyGC_generation0 := rfl

/-- Two heads with the same three fields are equal. -/
theorem PyGC_Head.eq_of_fields (a b : PyGC_Head) (h1 : a.gc_next = b.gc_next)
    (h2 : a.gc_prev = b.gc_prev) (h3 : a.gc_refs = b.gc_refs) : a = b := by
  cases a; cases b; simp_all

/-- Two states with the same sentinel and the same memory are equal. -/
theorem GCState.eq_of_mem (s t : GCState) (hz : s._PyGC_generation0 = t._PyGC_generation0)
    (hm : ∀ a, s.mem a = t.mem a) : s = t := by
  cases s; cases t
  simp only [GCState.mk.injEq]
  exact ⟨funext hm, hz⟩

/-- The splice, field by field. -/
theorem specTrack_fields (s : GCState) (g : Nat) : TrackedFrom s (specTrack s g) g := by
  unfold specTrack
  constructor
  · simp
  · intro x
    simp only [next_set_gc_next, prev_set_gc_next, refs_set_gc_next, next_set_gc_prev,
      prev_set_gc_prev, refs_set_gc_prev, next_set_gc_refs, prev_set_gc_refs,
      refs_set_gc_refs, gen0_set_gc_prev, gen0_set_gc_next, gen0_set_gc_refs, ite_self]
  · intro x
    simp only [next_set_gc_next, prev_set_gc_next, refs_set_gc_next, next_set_gc_prev,
      prev_set_gc_prev, refs_set_gc_prev, next_set_gc_refs, prev_set_gc_refs,
      refs_set_gc_refs, gen0_set_gc_prev, gen0_set_gc_next, gen0_set_gc_refs, ite_self]
  · intro x
    simp only [next_set_gc_next, prev_set_gc_next, refs_set_gc_next, next_set_gc_prev,
      prev_set_gc_prev, refs_set_gc_prev, next_set_gc_refs, prev_set_gc_refs,
      refs_set_gc_refs, gen0_set_gc_prev, gen0_set_gc_next, gen0_set_gc_refs]

/-- The track body returns as soon as the head, the sentinel and the tail are
real addresses and the head is Untracked; the result is the splice of the
spec. -/
theorem track_body_eq (E : Env) (s : GCState) (o : Nat)
    (hg : _Py_AS_GC E o ≠ NULL)
    (hu : (s.mem (_Py_AS_GC E o)).gc_refs = _PyGC_REFS_UNTRACKED)
    (hz : s._PyGC_generation0 ≠ NULL)
    (ht : (s.mem s._PyGC_generation0).gc_prev ≠ NULL) :
    __PyObject_GC_TRACK E s o = .returned (specTrack s (_Py_AS_GC E o)) := by
  unfold __PyObject_GC_TRACK specTrack
  simp only [next_set_gc_next, prev_set_gc_next, refs_set_gc_next, next_set_gc_prev,
      prev_set_gc_prev, refs_set_gc_prev, next_set_gc_refs, prev_set_gc_refs,
      refs_set_gc_refs, gen0_set_gc_prev, gen0_set_gc_next, gen0_set_gc_refs,
      if_neg hg, if_neg hz, if_neg ht, hu, ne_eq, not_true_eq_false, if_false, if_true]
  congr 1
  apply GCState.eq_of_mem
  · simp
  · intro a
    apply PyGC_Head.eq_of_fields <;>
    simp only [next_set_gc_next, prev_set_gc_next, refs_set_gc_next, next_set_gc_prev,
      prev_set_gc_prev, refs_set_gc_prev, next_set_gc_refs, prev_set_gc_refs,
      refs_set_gc_refs, gen0_set_gc_prev, gen0_set_gc_next, gen0_set_gc_refs, ite_self]

/-- The unlink, field by field. -/
theorem specUntrack_fields (s : GCState) (g : Nat) :
    UntrackedFrom s (specUntrack s g) g := by
  unfold specUntrack
  constructor
  · simp
  · intro x
    simp only [next_set_gc_next, prev_set_gc_next, refs_set_gc_next, next_set_gc_prev,
      prev_set_gc_prev, refs_set_gc_prev, next_set_gc_refs, prev_set_gc_refs,
      refs_set_gc_refs, gen0_set_gc_prev, gen0_set_gc_next, gen0_set_gc_refs, ite_self]
  · intro x
    simp only [next_set_gc_next, prev_set_gc_next, refs_set_gc_next, next_set_gc_prev,
      prev_set_gc_prev, refs_set_gc_prev, next_set_gc_refs, prev_set_gc_refs,
      refs_set_gc_refs, gen0_set_gc_prev, gen0_set_gc_next, gen0_set_gc_refs, ite_self]
  · intro x
    simp only [next_set_gc_next, prev_set_gc_next, refs_set_gc_next, next_set_gc_prev,
      prev_set_gc_prev, refs_set_gc_prev, next_set_gc_refs, prev_set_gc_refs,
      refs_set_gc_refs, gen0_set_gc_prev, gen0_set_gc_next, gen0_set_gc_refs, ite_self]

/-- The untrack body returns as soon as the head and its two neighbours are
real addresses and the assertion, if compiled in, holds; the result is the
unlink of the spec. -/
theorem untrack_body_eq (E : Env) (s : GCState) (o : Nat)
    (hg : _Py_AS_GC E o ≠ NULL)
    (ha : E.NDEBUG = true ∨ (s.mem (_Py_AS_GC E o)).gc_refs ≠ _PyGC_REFS_UNTRACKED)
    (hp : (s.mem (_Py_AS_GC E o)).gc_prev ≠ NULL)
    (hn : (s.mem (_Py_AS_GC E o)).gc_next ≠ NULL) :
    __PyObject_GC_UNTRACK E s o = .returned (specUntrack s (_Py_AS_GC E o)) := by
  have ha1 : ¬ (E.NDEBUG = false ∧
      (s.mem (_Py_AS_GC E o)).gc_refs = _PyGC_REFS_UNTRACKED) := by
    rintro ⟨h1, h2⟩
    rcases ha with h | h
    · rw [h1] at h; exact Bool.noConfusion h
    · exact h h2
  unfold __PyObject_GC_UNTRACK specUntrack
  simp only [next_set_gc_next, prev_set_gc_next, refs_set_gc_next, next_set_gc_prev,
      prev_set_gc_prev, refs_set_gc_prev, next_set_gc_refs, prev_set_gc_refs,
      refs_set_gc_refs, gen0_set_gc_prev, gen0_set_gc_next, gen0_set_gc_refs,
      if_neg hg, if_neg ha1, if_neg hp, if_neg hn, ite_self]
  congr 1
  apply GCState.eq_of_mem
  · simp
  · intro a
    apply PyGC_Head.eq_of_fields <;>
    simp only [next_set_gc_next, prev_set_gc_next, refs_set_gc_next, next_set_gc_prev,
      prev_set_gc_prev, refs_set_gc_prev, next_set_gc_refs, prev_set_gc_refs,
      refs_set_gc_refs, gen0_set_gc_prev, gen0_set_gc_next, gen0_set_gc_refs, ite_self]

/-! ## Chains of links -/

theorem Linked.append_iff (s : GCState) (l1 l2 : List Nat) (a x b : Nat) :
    Linked s a (l1 ++ x :: l2) b ↔ Linked s a l1 x ∧ Linked s x l2 b := by
  induction l1 generalizing a with
  | nil => simp [Linked, and_assoc]
  | cons y ys ih => simp [Linked, ih, and_assoc]

/-- A chain survives any change of memory that keeps the `gc_next` of its
sources and the `gc_prev` of its targets. -/
theorem Linked.frame {s s1 : GCState} {a b : Nat} {l : List Nat}
    (h : Linked s a l b)
    (hn : ∀ x ∈ a :: l, (s1.mem x).gc_next = (s.mem x).gc_next)
    (hp : ∀ x ∈ l ++ [b], (s1.mem x).gc_prev = (s.mem x).gc_prev) :
    Linked s1 a l b := by
  induction l generalizing a with
  | nil =>
    simp only [Linked] at h ⊢
    rw [hn a (by simp), hp b (by simp)]
    exact h
  | cons y ys ih =>
    simp only [Linked] at h ⊢
    refine ⟨?_, ?_, ih h.2.2 ?_ ?_⟩
    · rw [hn a (by simp)]; exact h.1
    · rw [hp y (by simp)]; exact h.2.1
    · intro x hx; exact hn x (List.mem_cons_of_mem _ hx)
    · intro x hx; exact hp x (by simpa using Or.inr (by simpa using hx))

/-- The `gc_prev` of the end of a chain is the last source of the chain. -/
theorem Linked.prev_mem {s : GCState} {a b : Nat} {l : List Nat}
    (h : Linked s a l b) : (s.mem b).gc_prev ∈ a :: l := by
  induction l generalizing a with
  | nil => simp only [Linked] at h; simp [h.2]
  | cons y ys ih =>
    simp only [Linked] at h
    exact List.mem_cons_of_mem _ (ih h.2.2)

/-- The `gc_next` of the start of a chain is the first target of the chain. -/
theorem Linked.next_mem {s : GCState} {a b : Nat} {l : List Nat}
    (h : Linked s a l b) : (s.mem a).gc_next ∈ l ++ [b] := by
  cases l with
  | nil => simp only [Linked] at h; simp [h.1]
  | cons y ys => simp only [Linked] at h; simp [h.1]

/-- The `gc_next` walk reads a chain back. -/
theorem walkNext_of_linked {s : GCState} {a b : Nat} {l : List Nat}
    (h : Linked s a l b) (hb : b ∉ l) (fuel : Nat) (hf : l.length < fuel) :
    walkNext s b fuel (s.mem a).gc_next = some l := by
  induction l generalizing a fuel with
  | nil =>
    simp only [Linked] at h
    cases fuel with
    | zero => simp at hf
    | succ n => simp [walkNext, h.1]
  | cons y ys ih =>
    simp only [Linked] at h
    cases fuel with
    | zero => simp at hf
    | succ n =>
      have hy : y ≠ b := fun e => hb (by simp [e])
      have hys : b ∉ ys := fun e => hb (List.mem_cons_of_mem _ e)
      simp only [walkNext, h.1, if_neg hy]
      rw [ih h.2.2 hys n (by simpa using hf)]
      rfl

/-! ## The two macros keep the ring well formed -/

/-- The tail of a well-formed ring is the sentinel or a member. -/
theorem WellFormedRing.tail_mem {s : GCState} {l : List Nat} (h : WellFormedRing s l) :
    (s.mem s._PyGC_generation0).gc_prev ∈ s._PyGC_generation0 :: l :=
  h.linked.prev_mem

theorem WellFormedRing.ne_null_of_mem {s : GCState} {l : List Nat}
    (h : WellFormedRing s l) {x : Nat} (hx : x ∈ s._PyGC_generation0 :: l) : x ≠ NULL := by
  rcases List.mem_cons.1 hx with e | e
  · rw [e]; exact h.sentinel_ne_null
  · intro e0; exact h.null_not_mem (e0 ▸ e)

theorem WellFormedRing.tail_ne_null {s : GCState} {l : List Nat} (h : WellFormedRing s l) :
    (s.mem s._PyGC_generation0).gc_prev ≠ NULL :=
  h.ne_null_of_mem h.tail_mem

/-- Splicing a head that is neither null, nor the sentinel, nor a member at the
tail of a well-formed ring gives a well-formed ring with that head appended. -/
theorem WellFormedRing.track_preserved {s s1 : GCState} {l : List Nat} {g : Nat}
    (h : WellFormedRing s l) (hg0 : g ≠ NULL) (hgz : g ≠ s._PyGC_generation0)
    (hgl : g ∉ l) (ht : TrackedFrom s s1 g) : WellFormedRing s1 (l ++ [g]) := by
  have hnd := h.nodup
  have hlk := h.linked
  refine ⟨?_, ?_, ?_, ?_⟩
  · rw [ht.gen0]; exact h.sentinel_ne_null
  · rw [ht.gen0, ← List.cons_append]
    refine List.Nodup.append hnd (List.nodup_singleton g) ?_
    intro x hx hx1
    rw [List.mem_singleton] at hx1
    subst hx1
    rcases List.mem_cons.1 hx with e | e
    · exact hgz e
    · exact hgl e
  · intro h0
    rcases List.mem_append.1 h0 with e | e
    · exact h.null_not_mem e
    · rw [List.mem_singleton] at e; exact hg0 e.symm
  · rw [ht.gen0]
    rcases List.eq_nil_or_concat l with rfl | ⟨L, t, rfl⟩
    · simp only [Linked] at hlk
      simp only [List.nil_append, Linked, ht.next, ht.prev, hlk.1, hlk.2, if_true, if_neg hgz,
        and_self]
    · rw [List.concat_eq_append] at hlk hnd hgl ⊢
      rw [Linked.append_iff] at hlk
      obtain ⟨hl1, hl2⟩ := hlk
      simp only [Linked] at hl2
      have htz : t ≠ s._PyGC_generation0 := by
        intro e
        rw [List.nodup_cons] at hnd
        exact hnd.1 (by simp [e])
      have hgt : g ≠ t := fun e => hgl (by simp [e])
      rw [List.append_assoc, List.singleton_append, Linked.append_iff]
      refine ⟨hl1.frame ?_ ?_, ?_⟩
      · intro x hx
        have hxt : x ≠ t := by
          intro e
          subst e
          rw [← List.cons_append] at hnd
          exact (List.disjoint_of_nodup_append hnd) hx (by simp)
        have hxg : x ≠ g := by
          intro e
          subst e
          rcases List.mem_cons.1 hx with e | e
          · exact hgz e
          · exact hgl (by simp [e])
        rw [ht.next, hl2.2, if_neg hxt, if_neg hxg]
      · intro x hx
        have hxz : x ≠ s._PyGC_generation0 := by
          intro e
          subst e
          rw [List.nodup_cons] at hnd
          exact hnd.1 hx
        have hxg : x ≠ g := by
          intro e
          subst e
          exact hgl hx
        rw [ht.prev, if_neg hxz, if_neg hxg]
      · simp only [Linked, ht.next, ht.prev, hl2.2, if_true, if_neg hgz, if_neg hgt,
          if_neg htz, and_self]

/-- Unlinking a member of a well-formed ring gives a well-formed ring with
that member removed and the order of the others kept. -/
theorem WellFormedRing.untrack_preserved {s s1 : GCState} {l1 l2 : List Nat} {g : Nat}
    (h : WellFormedRing s (l1 ++ g :: l2)) (hu : UntrackedFrom s s1 g) :
    WellFormedRing s1 (l1 ++ l2) := by
  have hnd := h.nodup
  have hlk := h.linked
  rw [Linked.append_iff] at hlk
  obtain ⟨hA, hB⟩ := hlk
  rw [← List.cons_append, List.nodup_middle, List.nodup_cons] at hnd
  obtain ⟨hg, hnd1⟩ := hnd
  have hgz : g ≠ s._PyGC_generation0 := fun e => hg (by simp [e])
  have hgl1 : g ∉ l1 := fun e => hg (by simp [e])
  have hgl2 : g ∉ l2 := fun e => hg (by simp [e])
  have hzl1 : s._PyGC_generation0 ∉ l1 := by
    intro e; rw [List.cons_append, List.nodup_cons] at hnd1; exact hnd1.1 (by simp [e])
  have hzl2 : s._PyGC_generation0 ∉ l2 := by
    intro e; rw [List.cons_append, List.nodup_cons] at hnd1; exact hnd1.1 (by simp [e])
  have hdis : ∀ x, x ∈ l1 → x ∉ l2 := by
    intro x hx1 hx2
    rw [List.cons_append, List.nodup_cons] at hnd1
    exact (List.disjoint_of_nodup_append hnd1.2) hx1 hx2
  have hp := hA.prev_mem
  have hn := hB.next_mem
  have hnl1 : (s.mem g).gc_next ∉ l1 := by
    intro e
    rcases List.mem_append.1 hn with e2 | e2
    · exact hdis _ e e2
    · rw [List.mem_singleton] at e2; rw [e2] at e; exact hzl1 e
  have hpl2 : (s.mem g).gc_prev ∉ l2 := by
    intro e
    rcases List.mem_cons.1 hp with e2 | e2
    · rw [e2] at e; exact hzl2 e
    · exact hdis _ e2 e
  have hpg : (s.mem g).gc_prev ≠ g := by
    intro e
    rw [e] at hp
    rcases List.mem_cons.1 hp with e2 | e2
    · exact hgz e2
    · exact hgl1 e2
  -- the part of the ring before the removed head now ends at its successor
  have hA1 : Linked s1 s._PyGC_generation0 l1 (s.mem g).gc_next := by
    rcases List.eq_nil_or_concat l1 with rfl | ⟨L1, p0, rfl⟩
    · simp only [Linked] at hA
      simp only [Linked, hu.next, hu.prev, hA.2, if_true, if_neg (Ne.symm hgz), and_self]
    · rw [List.concat_eq_append] at hA hgl1 hzl1 hnl1 hnd1 ⊢
      rw [Linked.append_iff] at hA ⊢
      obtain ⟨hA2, hA3⟩ := hA
      simp only [Linked] at hA3
      have hp0g : p0 ≠ g := fun e => hgl1 (by simp [e])
      refine ⟨hA2.frame ?_ ?_, ?_⟩
      · intro x hx
        have hxg : x ≠ g := by
          intro e
          subst e
          rcases List.mem_cons.1 hx with e | e
          · exact hgz e
          · exact hgl1 (by simp [e])
        have hxp : x ≠ p0 := by
          intro e
          subst e
          have h5 := hnd1.of_append_left
          rw [← List.cons_append] at h5
          exact (List.disjoint_of_nodup_append h5) hx (by simp)
        rw [hu.next, hA3.2, if_neg hxg, if_neg hxp]
      · intro x hx
        have hxn : x ≠ (s.mem g).gc_next := fun e => hnl1 (e ▸ hx)
        rw [hu.prev, if_neg hxn]
      · simp only [Linked, hu.next, hu.prev, hA3.2, if_true, if_neg hp0g, and_self]
  refine ⟨?_, ?_, ?_, ?_⟩
  · rw [hu.gen0]; exact h.sentinel_ne_null
  · rw [hu.gen0]; exact hnd1
  · intro h0
    apply h.null_not_mem
    rcases List.mem_append.1 h0 with e | e
    · simp [e]
    · simp [e]
  · rw [hu.gen0]
    cases l2 with
    | nil =>
      simp only [Linked] at hB
      rw [List.append_nil]
      rw [hB.1] at hA1
      exact hA1
    | cons n0 L2 =>
      simp only [Linked] at hB
      rw [Linked.append_iff]
      rw [hB.1] at hA1
      refine ⟨hA1, hB.2.2.frame ?_ ?_⟩
      · intro x hx
        have hxg : x ≠ g := fun e => hgl2 (e ▸ hx)
        have hxp : x ≠ (s.mem g).gc_prev := fun e => hpl2 (e ▸ hx)
        rw [hu.next, if_neg hxg, if_neg hxp]
      · intro x hx
        have hxn : x ≠ (s.mem g).gc_next := by
          rw [hB.1]
          intro e
          subst e
          rcases List.mem_append.1 hx with e | e
          · have := hnd1
            rw [List.cons_append, List.nodup_cons, List.nodup_append] at this
            have h3 := this.2.2.1
            rw [List.nodup_cons] at h3
            exact h3.1 e
          · rw [List.mem_singleton] at e
            exact hzl2 (by simp [← e])
        rw [hu.prev, if_neg hxn]

/-! ## Context dispatch -/

/-- An object with a GC head is not a parallel-context object. -/
theorem not_px_of_head {E : Env} {o : Nat} (hg : _Py_AS_GC E o ≠ NULL) :
    ¬ (E.WITH_PARALLEL = true ∧ E.Py_ISPX o = true) := by
  rintro ⟨h1, h2⟩
  exact hg (by simp [_Py_AS_GC, h1, h2])

theorem track_of_head {E : Env} (s : GCState) {o : Nat} (hg : _Py_AS_GC E o ≠ NULL) :
    _PyObject_GC_TRACK E s o = __PyObject_GC_TRACK E s o := by
  have h := not_px_of_head hg
  unfold _PyObject_GC_TRACK
  cases h1 : E.WITH_PARALLEL <;> cases h2 : E.Py_ISPX o <;> simp_all

theorem untrack_of_head {E : Env} (s : GCState) {o : Nat} (hg : _Py_AS_GC E o ≠ NULL) :
    _PyObject_GC_UNTRACK E s o = __PyObject_GC_UNTRACK E s o := by
  have h := not_px_of_head hg
  unfold _PyObject_GC_UNTRACK
  cases h1 : E.WITH_PARALLEL <;> cases h2 : E.Py_ISPX o <;> simp_all

theorem is_tracked_of_head {E : Env} (s : GCState) {o : Nat} (hg : _Py_AS_GC E o ≠ NULL) :
    _PyObject_GC_IS_TRACKED E s o
      = some (decide ((s.mem (_Py_AS_GC E o)).gc_refs ≠ _PyGC_REFS_UNTRACKED)) := by
  have h := not_px_of_head hg
  unfold _PyObject_GC_IS_TRACKED __PyObject_GC_IS_TRACKED
  cases h1 : E.WITH_PARALLEL <;> cases h2 : E.Py_ISPX o <;> simp_all

/-- When the predicate answers false, the object is a parallel-context object
or has an Untracked GC head. -/
theorem is_tracked_false {E : Env} {s : GCState} {o : Nat}
    (h : _PyObject_GC_IS_TRACKED E s o = some false) :
    (E.WITH_PARALLEL = true ∧ E.Py_ISPX o = true) ∨
    (_Py_AS_GC E o ≠ NULL ∧ (s.mem (_Py_AS_GC E o)).gc_refs = _PyGC_REFS_UNTRACKED) := by
  by_cases hpx : E.WITH_PARALLEL = true ∧ E.Py_ISPX o = true
  · exact Or.inl hpx
  · right
    by_cases hg : _Py_AS_GC E o = NULL
    · exfalso
      unfold _PyObject_GC_IS_TRACKED __PyObject_GC_IS_TRACKED at h
      cases h1 : E.WITH_PARALLEL <;> cases h2 : E.Py_ISPX o <;> simp_all
    · refine ⟨hg, ?_⟩
      rw [is_tracked_of_head s hg] at h
      simpa using h

/-- When the predicate answers true, the object has a GC head that is not
Untracked. -/
theorem is_tracked_true {E : Env} {s : GCState} {o : Nat}
    (h : _PyObject_GC_IS_TRACKED E s o = some true) :
    _Py_AS_GC E o ≠ NULL ∧ (s.mem (_Py_AS_GC E o)).gc_refs ≠ _PyGC_REFS_UNTRACKED := by
  by_cases hg : _Py_AS_GC E o = NULL
  · exfalso
    unfold _PyObject_GC_IS_TRACKED __PyObject_GC_IS_TRACKED at h
    cases h1 : E.WITH_PARALLEL <;> cases h2 : E.Py_ISPX o <;> simp_all
  · refine ⟨hg, ?_⟩
    rw [is_tracked_of_head s hg] at h
    simpa using h

/-! ## The invariant along a run -/

theorem InitialState.inv {s : GCState} (h : InitialState s) : TrackingInv s [] := by
  refine ⟨⟨h.sentinel_ne_null, by simp, by simp, ?_⟩, ?_⟩
  · simp only [Linked]; exact h.empty
  · intro g h0 hz
    simp [h.untracked g h0 hz]

/-- Track on an Untracked non-member keeps the invariant and appends the head. -/
theorem TrackingInv.track_step {E : Env} {s : GCState} {l : List Nat} {o : Nat}
    (h : TrackingInv s l) (hg0 : _Py_AS_GC E o ≠ NULL)
    (hgz : _Py_AS_GC E o ≠ s._PyGC_generation0)
    (hu : (s.mem (_Py_AS_GC E o)).gc_refs = _PyGC_REFS_UNTRACKED) :
    _PyObject_GC_TRACK E s o = .returned (specTrack s (_Py_AS_GC E o)) ∧
    TrackingInv (specTrack s (_Py_AS_GC E o)) (l ++ [_Py_AS_GC E o]) := by
  have hgl : _Py_AS_GC E o ∉ l := (h.untracked_iff _ hg0 hgz).1 hu
  have hf := specTrack_fields s (_Py_AS_GC E o)
  refine ⟨?_, h.ring.track_preserved hg0 hgz hgl hf, ?_⟩
  · rw [track_of_head s hg0]
    exact track_body_eq E s o hg0 hu h.ring.sentinel_ne_null h.ring.tail_ne_null
  · intro x hx0 hxz
    rw [hf.gen0] at hxz
    rw [hf.refs]
    by_cases hxg : x = _Py_AS_GC E o
    · subst hxg
      simp [_PyGC_REFS_REACHABLE, _PyGC_REFS_UNTRACKED]
    · rw [if_neg hxg, h.untracked_iff x hx0 hxz]
      simp [hxg]

/-- Untrack on a tracked head keeps the invariant and removes the head. -/
theorem TrackingInv.untrack_step {E : Env} {s : GCState} {l : List Nat} {o : Nat}
    (h : TrackingInv s l) (hg0 : _Py_AS_GC E o ≠ NULL)
    (hgz : _Py_AS_GC E o ≠ s._PyGC_generation0)
    (hu : (s.mem (_Py_AS_GC E o)).gc_refs ≠ _PyGC_REFS_UNTRACKED) :
    _PyObject_GC_UNTRACK E s o = .returned (specUntrack s (_Py_AS_GC E o)) ∧
    TrackingInv (specUntrack s (_Py_AS_GC E o)) (l.erase (_Py_AS_GC E o)) := by
  have hgl : _Py_AS_GC E o ∈ l := by
    by_contra hc
    exact hu ((h.untracked_iff _ hg0 hgz).2 hc)
  obtain ⟨l1, l2, rfl⟩ := List.append_of_mem hgl
  have hring := h.ring
  have hnd := hring.nodup
  have hlk := hring.linked
  rw [Linked.append_iff] at hlk
  have hp : (s.mem (_Py_AS_GC E o)).gc_prev ≠ NULL :=
    hring.ne_null_of_mem (by
      have := hlk.1.prev_mem
      rcases List.mem_cons.1 this with e | e
      · simp [e]
      · simp [e])
  have hn : (s.mem (_Py_AS_GC E o)).gc_next ≠ NULL :=
    hring.ne_null_of_mem (by
      have := hlk.2.next_mem
      rcases List.mem_append.1 this with e | e
      · simp [e]
      · rw [List.mem_singleton] at e; simp [e])
  have hgl1 : _Py_AS_GC E o ∉ l1 := by
    intro e
    rw [List.nodup_cons] at hnd
    exact (List.disjoint_of_nodup_append hnd.2) e (by simp)
  have hgl2 : _Py_AS_GC E o ∉ l2 := by
    intro e
    rw [List.nodup_cons, List.nodup_append] at hnd
    have := hnd.2.2.1
    rw [List.nodup_cons] at this
    exact this.1 e
  have he : (l1 ++ _Py_AS_GC E o :: l2).erase (_Py_AS_GC E o) = l1 ++ l2 := by
    rw [List.erase_append_right _ hgl1, List.erase_cons_head]
  have hf := specUntrack_fields s (_Py_AS_GC E o)
  rw [he]
  refine ⟨?_, hring.untrack_preserved hf, ?_⟩
  · rw [untrack_of_head s hg0]
    exact untrack_body_eq E s o hg0 (Or.inr hu) hp hn
  · intro x hx0 hxz
    rw [hf.gen0] at hxz
    rw [hf.refs]
    by_cases hxg : x = _Py_AS_GC E o
    · subst hxg
      simp [hgl1, hgl2]
    · rw [if_neg hxg, h.untracked_iff x hx0 hxz]
      simp [hxg]

theorem exec_inv {E : Env} {s : GCState} {l : List Nat} {c : Call}
    (h : TrackingInv s l) (hc : CallPre E s c) :
    ∃ s1 l1, exec E s c = .returned s1 ∧ TrackingInv s1 l1 := by
  cases c with
  | track o =>
    obtain ⟨h1, h2⟩ := hc
    rcases is_tracked_false h1 with ⟨hp1, hp2⟩ | ⟨hg, hu⟩
    · exact ⟨s, l, by simp [exec, _PyObject_GC_TRACK, hp1, hp2], h⟩
    · exact ⟨_, _, (h.track_step hg h2 hu).1, (h.track_step hg h2 hu).2⟩
  | untrack o =>
    obtain ⟨h1, h2⟩ := hc
    obtain ⟨hg, hu⟩ := is_tracked_true h1
    exact ⟨_, _, (h.untrack_step hg h2 hu).1, (h.untrack_step hg h2 hu).2⟩

theorem run_inv {E : Env} {s : GCState} {l : List Nat} {cs : List Call}
    (h : TrackingInv s l) (hr : Respects E s cs) :
    ∃ s1 l1, run E s cs = .returned s1 ∧ TrackingInv s1 l1 := by
  induction cs generalizing s l with
  | nil => exact ⟨s, l, rfl, h⟩
  | cons c cs ih =>
    obtain ⟨hc, hrest⟩ := hr
    obtain ⟨s1, l1, he, hi⟩ := exec_inv h hc
    rw [he] at hrest
    obtain ⟨s2, l2, hrun, hi2⟩ := ih hi hrest
    exact ⟨s2, l2, by simp only [run, he, hrun], hi2⟩

/-- In a chain, the successor of the start points back to the start. -/
theorem Linked.next_prev {s : GCState} {a b : Nat} {l : List Nat}
    (h : Linked s a l b) : (s.mem (s.mem a).gc_next).gc_prev = a := by
  cases l with
  | nil => simp only [Linked] at h; rw [h.1, h.2]
  | cons y ys => simp only [Linked] at h; rw [h.1, h.2.1]

/-- In a chain, the predecessor of the end points forward to the end. -/
theorem Linked.prev_next {s : GCState} {a b : Nat} {l : List Nat}
    (h : Linked s a l b) : (s.mem (s.mem b).gc_prev).gc_next = b := by
  induction l generalizing a with
  | nil => simp only [Linked] at h; rw [h.2, h.1]
  | cons y ys ih => simp only [Linked] at h; exact ih h.2.2

/-- Every member of a well-formed ring, the sentinel included, is the
successor of its predecessor and the predecessor of its successor. -/
theorem WellFormedRing.circular {s : GCState} {l : List Nat} (h : WellFormedRing s l)
    {x : Nat} (hx : x ∈ s._PyGC_generation0 :: l) :
    (s.mem (s.mem x).gc_prev).gc_next = x ∧ (s.mem (s.mem x).gc_next).gc_prev = x := by
  rcases List.mem_cons.1 hx with e | e
  · subst e
    exact ⟨h.linked.prev_next, h.linked.next_prev⟩
  · obtain ⟨l1, l2, rfl⟩ := List.append_of_mem e
    have hlk := h.linked
    rw [Linked.append_iff] at hlk
    exact ⟨hlk.1.prev_next, hlk.2.next_prev⟩

/-- The collector's walk over a well-formed ring finds exactly its members. -/
theorem WellFormedRing.members {s : GCState} {l : List Nat} (h : WellFormedRing s l)
    (fuel : Nat) (hf : l.length < fuel) : ringMembers s fuel = some l := by
  have hz : s._PyGC_generation0 ∉ l := (List.nodup_cons.1 h.nodup).1
  exact walkNext_of_linked h.linked hz fuel hf

theorem state0_initial : InitialState state0 := by
  refine ⟨by decide, ⟨by decide, by decide⟩, ?_⟩
  intro g _ hz
  have : g ≠ 1000 := hz
  simp [state0, this, _PyGC_REFS_UNTRACKED]

/-- Track on a non-member of a well-formed ring returns the splice. -/
theorem WellFormedRing.track_returns {E : Env} {s : GCState} {l : List Nat} {o : Nat}
    (h : WellFormedRing s l) (hg0 : _Py_AS_GC E o ≠ NULL)
    (hu : (s.mem (_Py_AS_GC E o)).gc_refs = _PyGC_REFS_UNTRACKED) :
    _PyObject_GC_TRACK E s o = .returned (specTrack s (_Py_AS_GC E o)) := by
  rw [track_of_head s hg0]
  exact track_body_eq E s o hg0 hu h.sentinel_ne_null h.tail_ne_null

/-- The neighbours of a member of a well-formed ring are real addresses. -/
theorem WellFormedRing.neighbours {s : GCState} {l : List Nat} (h : WellFormedRing s l)
    {g : Nat} (hm : g ∈ l) :
    (s.mem g).gc_prev ∈ s._PyGC_generation0 :: l ∧
    (s.mem g).gc_next ∈ s._PyGC_generation0 :: l := by
  obtain ⟨l1, l2, rfl⟩ := List.append_of_mem hm
  have hlk := h.linked
  rw [Linked.append_iff] at hlk
  constructor
  · rcases List.mem_cons.1 hlk.1.prev_mem with e | e
    · simp [e]
    · simp [e]
  · rcases List.mem_append.1 hlk.2.next_mem with e | e
    · simp [e]
    · rw [List.mem_singleton] at e; simp [e]

/-- Untrack on a member of a well-formed ring returns the unlink. -/
theorem WellFormedRing.untrack_returns {E : Env} {s : GCState} {l : List Nat} {o : Nat}
    (h : WellFormedRing s l) (hm : _Py_AS_GC E o ∈ l)
    (hu : (s.mem (_Py_AS_GC E o)).gc_refs ≠ _PyGC_REFS_UNTRACKED) :
    _PyObject_GC_UNTRACK E s o = .returned (specUntrack s (_Py_AS_GC E o)) := by
  have hg0 : _Py_AS_GC E o ≠ NULL := h.ne_null_of_mem (List.mem_cons_of_mem _ hm)
  rw [untrack_of_head s hg0]
  exact untrack_body_eq E s o hg0 (Or.inr hu)
    (h.ne_null_of_mem (h.neighbours hm).1) (h.ne_null_of_mem (h.neighbours hm).2)

/-- The ring left by unlinking a member: the other members in their order. -/
theorem WellFormedRing.untrack_erase {s : GCState} {l : List Nat} {g : Nat}
    (h : WellFormedRing s l) (hm : g ∈ l) :
    WellFormedRing (specUntrack s g) (l.erase g) := by
  obtain ⟨l1, l2, rfl⟩ := List.append_of_mem hm
  have hnd := h.nodup
  have hgl1 : g ∉ l1 := by
    intro e
    rw [List.nodup_cons] at hnd
    exact (List.disjoint_of_nodup_append hnd.2) e (by simp)
  rw [List.erase_append_right _ hgl1, List.erase_cons_head]
  exact h.untrack_preserved (specUntrack_fields s g)

theorem ringLength_of_members {s : GCState} {l : List Nat} {fuel : Nat}
    (h : ringMembers s fuel = some l) : ringLength s fuel = some l.length := by
  simp [ringLength, h]

/-! ## The claims -/

/-- C1. Starting from the empty generation-0 ring, with every object in the
initial state Untracked, any finite sequence of Track and Untrack calls that
each respect their precondition runs to completion, and in the state reached
the ring is circular: for every member `x` found by walking `gc_next` from the
sentinel, and for the sentinel itself, `x.prev.next == x` and
`x.next.prev == x`. -/
theorem C1_ring_stays_circular (E : Env) (s0 : GCState) (cs : List Call)
    (h0 : InitialState s0) (hr : Respects E s0 cs) :
    ∃ s l, run E s0 cs = .returned s ∧
      (∀ fuel, l.length < fuel → ringMembers s fuel = some l) ∧
      ∀ x ∈ s._PyGC_generation0 :: l,
        (s.mem (s.mem x).gc_prev).gc_next = x ∧ (s.mem (s.mem x).gc_next).gc_prev = x := by
  obtain ⟨s, l, hrun, hi⟩ := run_inv h0.inv hr
  exact ⟨s, l, hrun, hi.ring.members, fun x hx => hi.ring.circular hx⟩

/-- Instance of C1: three objects are tracked and the middle one untracked
again, in the plain build. -/
theorem C1_ring_stays_circular_witness :
    InitialState state0 ∧
    Respects envPlain state0 [.track 132, .track 232, .track 332, .untrack 232] ∧
    ∃ s l, run envPlain state0 [.track 132, .track 232, .track 332, .untrack 232]
        = .returned s ∧
      (∀ fuel, l.length < fuel → ringMembers s fuel = some l) ∧
      ∀ x ∈ s._PyGC_generation0 :: l,
        (s.mem (s.mem x).gc_prev).gc_next = x ∧ (s.mem (s.mem x).gc_next).gc_prev = x :=
  ⟨state0_initial, by decide,
    C1_ring_stays_circular envPlain state0 _ state0_initial (by decide)⟩

/-- C2. In every state reached from the empty generation-0 ring by
precondition-respecting Track and Untrack calls, a GC head other than the
sentinel is Untracked if and only if it is not a member of the ring; the
members are distinct, the sentinel is not one of them, so the non-sentinel
members are exactly the heads whose `gc_refs` is not Untracked, each once. -/
theorem C2_untracked_iff_not_member (E : Env) (s0 : GCState) (cs : List Call)
    (h0 : InitialState s0) (hr : Respects E s0 cs) :
    ∃ s l, run E s0 cs = .returned s ∧
      (∀ fuel, l.length < fuel → ringMembers s fuel = some l) ∧
      l.Nodup ∧ s._PyGC_generation0 ∉ l ∧
      (∀ g, g ≠ NULL → g ≠ s._PyGC_generation0 →
        ((s.mem g).gc_refs = _PyGC_REFS_UNTRACKED ↔ g ∉ l)) ∧
      (∀ g, g ≠ NULL → g ≠ s._PyGC_generation0 →
        ((s.mem g).gc_refs ≠ _PyGC_REFS_UNTRACKED ↔ List.count g l = 1)) := by
  obtain ⟨s, l, hrun, hi⟩ := run_inv h0.inv hr
  have hnd := List.nodup_cons.1 hi.ring.nodup
  refine ⟨s, l, hrun, hi.ring.members, hnd.2, hnd.1, hi.untracked_iff, ?_⟩
  intro g hg0 hgz
  rw [Ne, hi.untracked_iff g hg0 hgz, not_not]
  constructor
  · intro hm; exact List.count_eq_one_of_mem hnd.2 hm
  · intro hc
    exact List.count_pos_iff.1 (by omega)

/-- Instance of C2 on the same run as the instance of C1. -/
theorem C2_untracked_iff_not_member_witness :
    InitialState state0 ∧
    Respects envPlain state0 [.track 132, .track 232, .track 332, .untrack 232] ∧
    ∃ s l, run envPlain state0 [.track 132, .track 232, .track 332, .untrack 232]
        = .returned s ∧
      (∀ fuel, l.length < fuel → ringMembers s fuel = some l) ∧
      l.Nodup ∧ s._PyGC_generation0 ∉ l ∧
      (∀ g, g ≠ NULL → g ≠ s._PyGC_generation0 →
        ((s.mem g).gc_refs = _PyGC_REFS_UNTRACKED ↔ g ∉ l)) ∧
      (∀ g, g ≠ NULL → g ≠ s._PyGC_generation0 →
        ((s.mem g).gc_refs ≠ _PyGC_REFS_UNTRACKED ↔ List.count g l = 1)) :=
  ⟨state0_initial, by decide,
    C2_untracked_iff_not_member envPlain state0 _ state0_initial (by decide)⟩

/-- C3. For every Untracked object `o` with a GC head and every well-formed
generation-0 ring of which `o` is not a member, Track(o) returns and the ring
is one longer, and the following Untrack(o) returns too, without any fatal
condition: `o` is Untracked again, the ring has its former length and former
members, and every head other than that of `o` holds what it held before
Track. On the empty ring the ring is empty again at the end. -/
theorem C3_track_untrack_roundtrip (E : Env) (s : GCState) (l : List Nat) (o : Nat)
    (h : WellFormedRing s l) (hg0 : _Py_AS_GC E o ≠ NULL)
    (hgm : _Py_AS_GC E o ∉ s._PyGC_generation0 :: l)
    (hu : (s.mem (_Py_AS_GC E o)).gc_refs = _PyGC_REFS_UNTRACKED) :
    ∃ s1 s2, _PyObject_GC_TRACK E s o = .returned s1 ∧
      _PyObject_GC_UNTRACK E s1 o = .returned s2 ∧
      (∀ fuel, l.length + 1 < fuel →
        ringLength s fuel = some l.length ∧
        ringLength s1 fuel = some (l.length + 1) ∧
        ringLength s2 fuel = some l.length ∧
        ringMembers s2 fuel = ringMembers s fuel) ∧
      (s2.mem (_Py_AS_GC E o)).gc_refs = _PyGC_REFS_UNTRACKED ∧
      (∀ x, x ≠ _Py_AS_GC E o → s2.mem x = s.mem x) ∧
      (l = [] → EmptyRing s2) := by
  have hgz : _Py_AS_GC E o ≠ s._PyGC_generation0 := fun e => hgm (by simp [e])
  have hgl : _Py_AS_GC E o ∉ l := fun e => hgm (by simp [e])
  have hgt : _Py_AS_GC E o ≠ (s.mem s._PyGC_generation0).gc_prev :=
    fun e => hgm (e ▸ h.tail_mem)
  have hf := specTrack_fields s (_Py_AS_GC E o)
  have h1 : WellFormedRing (specTrack s (_Py_AS_GC E o)) (l ++ [_Py_AS_GC E o]) :=
    h.track_preserved hg0 hgz hgl hf
  have hm1 : _Py_AS_GC E o ∈ l ++ [_Py_AS_GC E o] := by simp
  have hr1 : ((specTrack s (_Py_AS_GC E o)).mem (_Py_AS_GC E o)).gc_refs
      ≠ _PyGC_REFS_UNTRACKED := by
    rw [hf.refs, if_pos rfl]; decide
  have hf2 := specUntrack_fields (specTrack s (_Py_AS_GC E o)) (_Py_AS_GC E o)
  have h2 : WellFormedRing (specUntrack (specTrack s (_Py_AS_GC E o)) (_Py_AS_GC E o)) l := by
    have := h1.untrack_erase hm1
    rwa [List.erase_append_right _ hgl, List.erase_cons_head, List.append_nil] at this
  refine ⟨_, _, h.track_returns hg0 hu, h1.untrack_returns hm1 hr1, ?_, ?_, ?_, ?_⟩
  · intro fuel hfuel
    have m0 := h.members fuel (by omega)
    have m1 := h1.members fuel (by simpa using hfuel)
    have m2 := h2.members fuel (by omega)
    refine ⟨ringLength_of_members m0, ?_, ringLength_of_members m2, by rw [m0, m2]⟩
    rw [ringLength_of_members m1]; simp
  · rw [hf2.refs, if_pos rfl]
  · intro x hx
    apply PyGC_Head.eq_of_fields
    · rw [hf2.next, if_neg hx, hf.prev, if_neg hgz, if_pos rfl, hf.next, if_pos rfl,
        hf.next, if_neg hx]
      split_ifs with e
      · rw [e]; exact h.linked.prev_next.symm
      · rfl
    · rw [hf2.prev, hf.next, if_neg hgt, if_pos rfl, hf.prev, if_neg hgz, if_pos rfl,
        hf.prev, if_neg hx]
      split_ifs with e
      · rw [e]
      · rfl
    · rw [hf2.refs, if_neg hx, hf.refs, if_neg hx]
  · intro hl
    subst hl
    have := h2.linked
    simp only [Linked, hf2.gen0, hf.gen0] at this
    exact this

/-- Instance of C3 on the empty ring of `state0`: the length goes 0, 1, 0. -/
theorem C3_track_untrack_roundtrip_witness :
    WellFormedRing state0 [] ∧
    ∃ s1 s2, _PyObject_GC_TRACK envPlain state0 132 = .returned s1 ∧
      _PyObject_GC_UNTRACK envPlain s1 132 = .returned s2 ∧
      (∀ fuel, ([] : List Nat).length + 1 < fuel →
        ringLength state0 fuel = some ([] : List Nat).length ∧
        ringLength s1 fuel = some (([] : List Nat).length + 1) ∧
        ringLength s2 fuel = some ([] : List Nat).length ∧
        ringMembers s2 fuel = ringMembers state0 fuel) ∧
      (s2.mem (_Py_AS_GC envPlain 132)).gc_refs = _PyGC_REFS_UNTRACKED ∧
      (∀ x, x ≠ _Py_AS_GC envPlain 132 → s2.mem x = state0.mem x) ∧
      (([] : List Nat) = [] → EmptyRing s2) :=
  ⟨⟨by decide, by decide, by decide, by decide⟩,
    C3_track_untrack_roundtrip envPlain state0 [] 132
      ⟨by decide, by decide, by decide, by decide⟩ (by decide) (by decide) (by decide)⟩

/-- C4. For every object whose GC head is Untracked and not on the (well
formed) generation-0 ring, Track returns, sets `gc_refs` to Reachable and
appends the head at the tail of the ring, right before the sentinel: its
`gc_next` is the sentinel, its `gc_prev` the former tail, the former tail's
`gc_next` and the sentinel's `gc_prev` are the head; the state is the one the
spec's four assignments produce, and the ring's members are the former ones
followed by the head. -/
theorem C4_track_appends_at_tail (E : Env) (s : GCState) (l : List Nat) (o : Nat)
    (h : WellFormedRing s l) (hg0 : _Py_AS_GC E o ≠ NULL)
    (hgm : _Py_AS_GC E o ∉ s._PyGC_generation0 :: l)
    (hu : (s.mem (_Py_AS_GC E o)).gc_refs = _PyGC_REFS_UNTRACKED) :
    ∃ s1, _PyObject_GC_TRACK E s o = .returned s1 ∧
      s1 = specTrack s (_Py_AS_GC E o) ∧
      (s1.mem (_Py_AS_GC E o)).gc_refs = _PyGC_REFS_REACHABLE ∧
      (s1.mem (_Py_AS_GC E o)).gc_next = s._PyGC_generation0 ∧
      (s1.mem (_Py_AS_GC E o)).gc_prev = (s.mem s._PyGC_generation0).gc_prev ∧
      (s1.mem (s.mem s._PyGC_generation0).gc_prev).gc_next = _Py_AS_GC E o ∧
      (s1.mem s._PyGC_generation0).gc_prev = _Py_AS_GC E o ∧
      s1._PyGC_generation0 = s._PyGC_generation0 ∧
      (∀ fuel, l.length + 1 < fuel → ringMembers s fuel = some l ∧
        ringMembers s1 fuel = some (l ++ [_Py_AS_GC E o])) := by
  have hgz : _Py_AS_GC E o ≠ s._PyGC_generation0 := fun e => hgm (by simp [e])
  have hgl : _Py_AS_GC E o ∉ l := fun e => hgm (by simp [e])
  have hgt : _Py_AS_GC E o ≠ (s.mem s._PyGC_generation0).gc_prev :=
    fun e => hgm (e ▸ h.tail_mem)
  have hf := specTrack_fields s (_Py_AS_GC E o)
  have h1 : WellFormedRing (specTrack s (_Py_AS_GC E o)) (l ++ [_Py_AS_GC E o]) :=
    h.track_preserved hg0 hgz hgl hf
  refine ⟨_, h.track_returns hg0 hu, rfl, ?_, ?_, ?_, ?_, ?_, hf.gen0, ?_⟩
  · rw [hf.refs, if_pos rfl]
  · rw [hf.next, if_neg hgt, if_pos rfl]
  · rw [hf.prev, if_neg hgz, if_pos rfl]
  · rw [hf.next, if_pos rfl]
  · rw [hf.prev, if_pos rfl]
  · intro fuel hfuel
    exact ⟨h.members fuel (by omega), h1.members fuel (by simpa using hfuel)⟩

/-- Instance of C4: the object at 332 is tracked on the ring of `state2`. -/
theorem C4_track_appends_at_tail_witness :
    WellFormedRing state2 [100, 200] ∧
    ∃ s1, _PyObject_GC_TRACK envPlain state2 332 = .returned s1 ∧
      s1 = specTrack state2 (_Py_AS_GC envPlain 332) ∧
      (s1.mem (_Py_AS_GC envPlain 332)).gc_refs = _PyGC_REFS_REACHABLE ∧
      (s1.mem (_Py_AS_GC envPlain 332)).gc_next = state2._PyGC_generation0 ∧
      (s1.mem (_Py_AS_GC envPlain 332)).gc_prev
        = (state2.mem state2._PyGC_generation0).gc_prev ∧
      (s1.mem (state2.mem state2._PyGC_generation0).gc_prev).gc_next
        = _Py_AS_GC envPlain 332 ∧
      (s1.mem state2._PyGC_generation0).gc_prev = _Py_AS_GC envPlain 332 ∧
      s1._PyGC_generation0 = state2._PyGC_generation0 ∧
      (∀ fuel, [100, 200].length + 1 < fuel → ringMembers state2 fuel = some [100, 200] ∧
        ringMembers s1 fuel = some ([100, 200] ++ [_Py_AS_GC envPlain 332])) :=
  ⟨⟨by decide, by decide, by decide, by decide⟩,
    C4_track_appends_at_tail envPlain state2 [100, 200] 332
      ⟨by decide, by decide, by decide, by decide⟩ (by decide) (by decide) (by decide)⟩

/-- C5. For every object whose GC head is a member of a well-formed ring and
whose `gc_refs` is anything but Untracked (Reachable, TentativelyUnreachable
or a collector value), Untrack returns and unlinks it: the former
predecessor's `gc_next` is the former successor, the former successor's
`gc_prev` is the former predecessor, `gc_refs` is Untracked and `gc_next` is
null; the ring's members are the former ones without the head. -/
theorem C5_untrack_unlinks (E : Env) (s : GCState) (l : List Nat) (o : Nat)
    (h : WellFormedRing s l) (hm : _Py_AS_GC E o ∈ l)
    (hu : (s.mem (_Py_AS_GC E o)).gc_refs ≠ _PyGC_REFS_UNTRACKED) :
    ∃ s1, _PyObject_GC_UNTRACK E s o = .returned s1 ∧
      s1 = specUntrack s (_Py_AS_GC E o) ∧
      (s1.mem (s.mem (_Py_AS_GC E o)).gc_prev).gc_next = (s.mem (_Py_AS_GC E o)).gc_next ∧
      (s1.mem (s.mem (_Py_AS_GC E o)).gc_next).gc_prev = (s.mem (_Py_AS_GC E o)).gc_prev ∧
      (s1.mem (_Py_AS_GC E o)).gc_refs = _PyGC_REFS_UNTRACKED ∧
      (s1.mem (_Py_AS_GC E o)).gc_next = NULL ∧
      s1._PyGC_generation0 = s._PyGC_generation0 ∧
      (∀ fuel, l.length < fuel → ringMembers s fuel = some l ∧
        ringMembers s1 fuel = some (l.erase (_Py_AS_GC E o))) := by
  have hf := specUntrack_fields s (_Py_AS_GC E o)
  have h1 := h.untrack_erase hm
  have hpg : (s.mem (_Py_AS_GC E o)).gc_prev ≠ _Py_AS_GC E o := by
    obtain ⟨l1, l2, e⟩ := List.append_of_mem hm
    have hnd := h.nodup
    have hlk := h.linked
    rw [e] at hnd hlk
    rw [Linked.append_iff] at hlk
    rw [← List.cons_append] at hnd
    intro e2
    have := hlk.1.prev_mem
    rw [e2] at this
    exact (List.disjoint_of_nodup_append hnd) this (by simp)
  refine ⟨_, h.untrack_returns hm hu, rfl, ?_, ?_, ?_, ?_, hf.gen0, ?_⟩
  · rw [hf.next, if_neg hpg, if_pos rfl]
  · rw [hf.prev, if_pos rfl]
  · rw [hf.refs, if_pos rfl]
  · rw [hf.next, if_pos rfl]
  · intro fuel hfuel
    refine ⟨h.members fuel hfuel, h1.members fuel ?_⟩
    exact lt_of_le_of_lt (List.length_erase_le _ _) hfuel

/-- Instance of C5: the tentatively unreachable head 200 of `state2T` is
untracked. -/
theorem C5_untrack_unlinks_witness :
    WellFormedRing state2T [100, 200] ∧
    (state2T.mem (_Py_AS_GC envPlain 232)).gc_refs = _PyGC_REFS_TENTATIVELY_UNREACHABLE ∧
    ∃ s1, _PyObject_GC_UNTRACK envPlain state2T 232 = .returned s1 ∧
      s1 = specUntrack state2T (_Py_AS_GC envPlain 232) ∧
      (s1.mem (state2T.mem (_Py_AS_GC envPlain 232)).gc_prev).gc_next
        = (state2T.mem (_Py_AS_GC envPlain 232)).gc_next ∧
      (s1.mem (state2T.mem (_Py_AS_GC envPlain 232)).gc_next).gc_prev
        = (state2T.mem (_Py_AS_GC envPlain 232)).gc_prev ∧
      (s1.mem (_Py_AS_GC envPlain 232)).gc_refs = _PyGC_REFS_UNTRACKED ∧
      (s1.mem (_Py_AS_GC envPlain 232)).gc_next = NULL ∧
      s1._PyGC_generation0 = state2T._PyGC_generation0 ∧
      (∀ fuel, [100, 200].length < fuel → ringMembers state2T fuel = some [100, 200] ∧
        ringMembers s1 fuel = some ([100, 200].erase (_Py_AS_GC envPlain 232))) :=
  ⟨⟨by decide, by decide, by decide, by decide⟩, by decide,
    C5_untrack_unlinks envPlain state2T [100, 200] 232
      ⟨by decide, by decide, by decide, by decide⟩ (by decide) (by decide)⟩

/-- C6. For every object with a GC head whose `gc_refs` is not Untracked
(Reachable, TentativelyUnreachable or any other value), Track ends in
`Py_FatalError` with the message 'GC object already tracked' and the memory
at the abort is the memory before the call: no link and no field was
written. -/
theorem C6_track_tracked_is_fatal (E : Env) (s : GCState) (o : Nat)
    (hg0 : _Py_AS_GC E o ≠ NULL)
    (ht : (s.mem (_Py_AS_GC E o)).gc_refs ≠ _PyGC_REFS_UNTRACKED) :
    _PyObject_GC_TRACK E s o = .fatal alreadyTrackedMsg s ∧
    alreadyTrackedMsg = "GC object already tracked" := by
  refine ⟨?_, rfl⟩
  rw [track_of_head s hg0]
  unfold __PyObject_GC_TRACK
  simp only [if_neg hg0, ne_eq, ht, not_false_eq_true, if_true]

/-- Instance of C6: tracking the already tracked object at 232 in `state2`. -/
theorem C6_track_tracked_is_fatal_witness :
    (state2.mem (_Py_AS_GC envPlain 232)).gc_refs = _PyGC_REFS_REACHABLE ∧
    _PyObject_GC_TRACK envPlain state2 232 = .fatal alreadyTrackedMsg state2 ∧
    alreadyTrackedMsg = "GC object already tracked" :=
  ⟨by decide, C6_track_tracked_is_fatal envPlain state2 232 (by decide) (by decide)⟩

/-- C7, as stated, fails in a build without assertions. In `state3` the head
200 of the object at 232 is Untracked and head 100 is the only member of the
ring, its `gc_next` being the sentinel. Untrack on 232 is neither a
`Py_FatalError` nor a failed assertion there: it stores null into the
`gc_next` of member 100 and then dereferences the null `gc_next` of 200. -/
theorem C7_counterexample :
    envRelease.NDEBUG = true ∧
    _Py_AS_GC envRelease 232 = 200 ∧
    (state3.mem 200).gc_refs = _PyGC_REFS_UNTRACKED ∧
    ringMembers state3 5 = some [100] ∧
    (state3.mem 100).gc_next = state3._PyGC_generation0 ∧
    (_PyObject_GC_UNTRACK envRelease state3 232).isFatal = false ∧
    (_PyObject_GC_UNTRACK envRelease state3 232).isAssertion = false ∧
    (_PyObject_GC_UNTRACK envRelease state3 232).isFault = true ∧
    ((_PyObject_GC_UNTRACK envRelease state3 232).state.mem 100).gc_next = NULL := by
  decide

/-- C7, amended. For every object with a GC head whose `gc_refs` is
Untracked: in a build with assertions (`NDEBUG` not defined) Untrack stops at
the failed `assert`, before any store, so the memory at the abort is the
memory before the call; in a build with `NDEBUG` the outcome is neither a
failed assertion nor a `Py_FatalError`. In no build is it the `Py_FatalError`
that Track raises. -/
theorem C7_untrack_untracked_asserts (E : Env) (s : GCState) (o : Nat)
    (hg0 : _Py_AS_GC E o ≠ NULL)
    (hu : (s.mem (_Py_AS_GC E o)).gc_refs = _PyGC_REFS_UNTRACKED) :
    (E.NDEBUG = false → _PyObject_GC_UNTRACK E s o = .assertion s) ∧
    (E.NDEBUG = true → (_PyObject_GC_UNTRACK E s o).isAssertion = false) ∧
    (_PyObject_GC_UNTRACK E s o).isFatal = false := by
  rw [untrack_of_head s hg0]
  refine ⟨?_, ?_, ?_⟩
  · intro hd
    unfold __PyObject_GC_UNTRACK
    simp only [if_neg hg0, hd, hu, and_self, if_true]
  · intro hd
    unfold __PyObject_GC_UNTRACK
    simp only [if_neg hg0, hd, Bool.true_eq_false, false_and, if_false]
    split_ifs <;> rfl
  · unfold __PyObject_GC_UNTRACK
    simp only [if_neg hg0]
    split_ifs <;> rfl

/-- Instance of C7 amended: untracking the Untracked object at 232 in
`state3`, once with assertions and once without. -/
theorem C7_untrack_untracked_asserts_witness :
    (state3.mem (_Py_AS_GC envPlain 232)).gc_refs = _PyGC_REFS_UNTRACKED ∧
    _PyObject_GC_UNTRACK envPlain state3 232 = .assertion state3 ∧
    (_PyObject_GC_UNTRACK envRelease state3 232).isAssertion = false ∧
    (_PyObject_GC_UNTRACK envRelease state3 232).isFatal = false :=
  ⟨by decide,
    (C7_untrack_untracked_asserts envPlain state3 232 (by decide) (by decide)).1 rfl,
    (C7_untrack_untracked_asserts envRelease state3 232 (by decide) (by decide)).2.1 rfl,
    (C7_untrack_untracked_asserts envRelease state3 232 (by decide) (by decide)).2.2⟩

/-- C8. In the `WITH_PARALLEL` build, for every parallel-context object
(`Py_ISPX(o)` true), whatever its type and the type's flags:
`_PyObject_GC_IS_TRACKED` and `_PyObject_GC_MAY_BE_TRACKED` are false, and
`_PyObject_GC_TRACK` and `_PyObject_GC_UNTRACK` return with the state they
were given, so the sentinel and every head keep their links and `gc_refs`. -/
theorem C8_parallel_objects_untouched (E : Env) (s : GCState) (o : Nat)
    (hp : E.WITH_PARALLEL = true) (hx : E.Py_ISPX o = true) :
    _PyObject_GC_IS_TRACKED E s o = some false ∧
    _PyObject_GC_MAY_BE_TRACKED E s o = some false ∧
    _PyObject_GC_TRACK E s o = .returned s ∧
    _PyObject_GC_UNTRACK E s o = .returned s := by
  refine ⟨?_, ?_, ?_, ?_⟩
  · simp [_PyObject_GC_IS_TRACKED, hp, hx]
  · simp [_PyObject_GC_MAY_BE_TRACKED, hp, hx]
  · simp [_PyObject_GC_TRACK, hp, hx]
  · simp [_PyObject_GC_UNTRACK, hp, hx]

/-- Instance of C8: the parallel-context object at 4096, whose type has the
GC flag set, on the ring of `state2`. -/
theorem C8_parallel_objects_untouched_witness :
    PyType_HasFeature (envParallel.Py_TYPE 4096) envParallel.Py_TPFLAGS_HAVE_GC = true ∧
    _PyObject_GC_IS_TRACKED envParallel state2 4096 = some false ∧
    _PyObject_GC_MAY_BE_TRACKED envParallel state2 4096 = some false ∧
    _PyObject_GC_TRACK envParallel state2 4096 = .returned state2 ∧
    _PyObject_GC_UNTRACK envParallel state2 4096 = .returned state2 :=
  ⟨by decide, C8_parallel_objects_untouched envParallel state2 4096 rfl rfl⟩

/-- C9. `PyType_IS_GC(t)` is false for every type when evaluated in the
parallel context (`WITH_PARALLEL` build, `Py_PXCTX` true), whatever the
type's flags; evaluated outside it (plain build, or `Py_PXCTX` false) it is
exactly the type's `Py_TPFLAGS_HAVE_GC` flag. -/
theorem C9_type_is_gc (E : Env) (t : PyTypeObject) :
    (E.WITH_PARALLEL = true → E.Py_PXCTX = true → PyType_IS_GC E t = false) ∧
    (E.WITH_PARALLEL = false ∨ E.Py_PXCTX = false →
      PyType_IS_GC E t = PyType_HasFeature t E.Py_TPFLAGS_HAVE_GC) := by
  constructor
  · intro h1 h2
    simp [PyType_IS_GC, h1, h2]
  · rintro (h | h)
    · simp [PyType_IS_GC, __PyType_IS_GC, h]
    · simp [PyType_IS_GC, __PyType_IS_GC, h]

/-- Instance of C9: a type with the GC flag, in the parallel context and in
the plain build. -/
theorem C9_type_is_gc_witness :
    PyType_HasFeature ⟨16, 0, 2 ^ 14, 0, none⟩ (2 ^ 14) = true ∧
    PyType_IS_GC envParallel ⟨16, 0, 2 ^ 14, 0, none⟩ = false ∧
    PyType_IS_GC envPlain ⟨16, 0, 2 ^ 14, 0, none⟩
      = PyType_HasFeature ⟨16, 0, 2 ^ 14, 0, none⟩ envPlain.Py_TPFLAGS_HAVE_GC :=
  ⟨by decide, (C9_type_is_gc envParallel ⟨16, 0, 2 ^ 14, 0, none⟩).1 rfl rfl,
    (C9_type_is_gc envPlain ⟨16, 0, 2 ^ 14, 0, none⟩).2 (Or.inl rfl)⟩

/-- C10. `_PyObject_GC_IS_TRACKED` on an object with a GC head is a function
of the state alone (it returns a truth value and no state) and is true
exactly when `gc_refs` is not Untracked (-2): true for Reachable (-3), for
TentativelyUnreachable (-4) and for every non-negative value, false only for
Untracked. -/
theorem C10_is_tracked (E : Env) (s : GCState) (o : Nat)
    (hg0 : _Py_AS_GC E o ≠ NULL) :
    (_PyObject_GC_IS_TRACKED E s o = some true ↔
      (s.mem (_Py_AS_GC E o)).gc_refs ≠ _PyGC_REFS_UNTRACKED) ∧
    (_PyObject_GC_IS_TRACKED E s o = some false ↔
      (s.mem (_Py_AS_GC E o)).gc_refs = -2) ∧
    ((s.mem (_Py_AS_GC E o)).gc_refs = _PyGC_REFS_REACHABLE →
      _PyObject_GC_IS_TRACKED E s o = some true) ∧
    ((s.mem (_Py_AS_GC E o)).gc_refs = _PyGC_REFS_TENTATIVELY_UNREACHABLE →
      _PyObject_GC_IS_TRACKED E s o = some true) ∧
    (0 ≤ (s.mem (_Py_AS_GC E o)).gc_refs → _PyObject_GC_IS_TRACKED E s o = some true) ∧
    _PyGC_REFS_UNTRACKED = -2 ∧ _PyGC_REFS_REACHABLE = -3 ∧
    _PyGC_REFS_TENTATIVELY_UNREACHABLE = -4 := by
  rw [is_tracked_of_head s hg0]
  refine ⟨by simp, by simp [_PyGC_REFS_UNTRACKED], ?_, ?_, ?_, rfl, rfl, rfl⟩
  · intro h; rw [h]; rfl
  · intro h; rw [h]; rfl
  · intro h
    have : (s.mem (_Py_AS_GC E o)).gc_refs ≠ _PyGC_REFS_UNTRACKED := by
      unfold _PyGC_REFS_UNTRACKED; omega
    simp [this]

/-- Instance of C10 on `state2T`: head 100 is Reachable, head 200
tentatively unreachable, head 300 Untracked. -/
theorem C10_is_tracked_witness :
    _PyObject_GC_IS_TRACKED envPlain state2T 132 = some true ∧
    _PyObject_GC_IS_TRACKED envPlain state2T 232 = some true ∧
    (_PyObject_GC_IS_TRACKED envPlain state2T 332 = some false ↔
      (state2T.mem (_Py_AS_GC envPlain 332)).gc_refs = -2) :=
  ⟨(C10_is_tracked envPlain state2T 132 (by decide)).2.2.1 (by decide),
    (C10_is_tracked envPlain state2T 232 (by decide)).2.2.2.1 (by decide),
    (C10_is_tracked envPlain state2T 332 (by decide)).2.1⟩

/-- C11, as stated, fails in the `WITH_PARALLEL` build when the calling thread
is in the parallel context. The object at 232 is a sequential-context object
(`Py_ISPX` false) with GC head 200; its type has the GC flag and no `tp_is_gc`
slot, it is not a tuple, and in `state2` it is tracked. The formula of the
claim gives true, the macro gives false. -/
theorem C11_counterexample :
    envParallel.WITH_PARALLEL = true ∧ envParallel.Py_PXCTX = true ∧
    envParallel.Py_ISPX 232 = false ∧
    _Py_AS_GC envParallel 232 = 200 ∧
    PyType_HasFeature (envParallel.Py_TYPE 232) envParallel.Py_TPFLAGS_HAVE_GC = true ∧
    (envParallel.Py_TYPE 232).tp_is_gc.isNone = true ∧
    envParallel.PyTuple_CheckExact 232 = false ∧
    _PyObject_GC_IS_TRACKED envParallel state2 232 = some true ∧
    _PyObject_GC_MAY_BE_TRACKED envParallel state2 232 = some false := by
  decide

/-- C11, amended. For every object with a GC head (a sequential-context
object), `_PyObject_GC_MAY_BE_TRACKED` is false when the calling thread is in
the parallel context of the `WITH_PARALLEL` build, because `PyObject_IS_GC`
goes through `PyType_IS_GC`; otherwise it is the conjunction of the type's GC
flag, of `tp_is_gc == NULL || tp_is_gc(obj)` and of
`!PyTuple_CheckExact(obj) || gc_refs != UNTRACKED`. Hence it is false when the
type lacks the GC flag or the `tp_is_gc` slot rejects the object, and outside
the parallel context it is true for every tracked object that passes
`PyObject_IS_GC`. -/
theorem C11_may_be_tracked (E : Env) (s : GCState) (o : Nat)
    (hg0 : _Py_AS_GC E o ≠ NULL) :
    _PyObject_GC_MAY_BE_TRACKED E s o = some
      (!(E.WITH_PARALLEL && E.Py_PXCTX) &&
        (PyType_HasFeature (E.Py_TYPE o) E.Py_TPFLAGS_HAVE_GC &&
          ((match (E.Py_TYPE o).tp_is_gc with
            | none => true
            | some f => f o != 0) &&
          (!E.PyTuple_CheckExact o ||
            decide ((s.mem (_Py_AS_GC E o)).gc_refs ≠ _PyGC_REFS_UNTRACKED))))) ∧
    (PyType_HasFeature (E.Py_TYPE o) E.Py_TPFLAGS_HAVE_GC = false →
      _PyObject_GC_MAY_BE_TRACKED E s o = some false) ∧
    (∀ f, (E.Py_TYPE o).tp_is_gc = some f → f o = 0 →
      _PyObject_GC_MAY_BE_TRACKED E s o = some false) ∧
    ((E.WITH_PARALLEL = false ∨ E.Py_PXCTX = false) → PyObject_IS_GC E o = true →
      (s.mem (_Py_AS_GC E o)).gc_refs ≠ _PyGC_REFS_UNTRACKED →
      _PyObject_GC_MAY_BE_TRACKED E s o = some true) := by
  have hpx := not_px_of_head hg0
  have ht := is_tracked_of_head s hg0
  have hmain : _PyObject_GC_MAY_BE_TRACKED E s o = some
      (!(E.WITH_PARALLEL && E.Py_PXCTX) &&
        (PyType_HasFeature (E.Py_TYPE o) E.Py_TPFLAGS_HAVE_GC &&
          ((match (E.Py_TYPE o).tp_is_gc with
            | none => true
            | some f => f o != 0) &&
          (!E.PyTuple_CheckExact o ||
            decide ((s.mem (_Py_AS_GC E o)).gc_refs ≠ _PyGC_REFS_UNTRACKED))))) := by
    unfold _PyObject_GC_MAY_BE_TRACKED __PyObject_GC_MAY_BE_TRACKED PyObject_IS_GC
      __PyObject_IS_GC PyType_IS_GC __PyType_IS_GC
    rw [ht]
    cases h1 : E.WITH_PARALLEL <;> cases h2 : E.Py_ISPX o <;> cases h3 : E.Py_PXCTX <;>
      cases h4 : PyType_HasFeature (E.Py_TYPE o) E.Py_TPFLAGS_HAVE_GC <;>
      cases h5 : E.PyTuple_CheckExact o <;>
      cases h6 : (match (E.Py_TYPE o).tp_is_gc with
            | none => true
            | some f => f o != 0) <;> simp_all
  refine ⟨hmain, ?_, ?_, ?_⟩
  · intro h
    rw [hmain, h]; simp
  · intro f hf hz
    rw [hmain, hf]; simp [hz]
  · intro hseq hgc htr
    have hctx : (E.WITH_PARALLEL && E.Py_PXCTX) = false := by
      rcases hseq with h | h <;> simp [h]
    unfold PyObject_IS_GC __PyObject_IS_GC PyType_IS_GC __PyType_IS_GC at hgc
    rw [hmain, hctx]
    cases h1 : E.WITH_PARALLEL <;> cases h2 : E.Py_ISPX o <;> cases h3 : E.Py_PXCTX <;>
      simp_all

/-- Instance of C11 amended: the tracked object at 232 of `state2` in the
plain build, and the same object seen from the parallel context. -/
theorem C11_may_be_tracked_witness :
    _PyObject_GC_MAY_BE_TRACKED envPlain state2 232 = some true ∧
    _PyObject_GC_MAY_BE_TRACKED envParallel state2 232 = some
      (!(envParallel.WITH_PARALLEL && envParallel.Py_PXCTX) &&
        (PyType_HasFeature (envParallel.Py_TYPE 232) envParallel.Py_TPFLAGS_HAVE_GC &&
          ((match (envParallel.Py_TYPE 232).tp_is_gc with
            | none => true
            | some f => f 232 != 0) &&
          (!envParallel.PyTuple_CheckExact 232 ||
            decide ((state2.mem (_Py_AS_GC envParallel 232)).gc_refs
              ≠ _PyGC_REFS_UNTRACKED))))) :=
  ⟨(C11_may_be_tracked envPlain state2 232 (by decide)).2.2.2 (Or.inl rfl)
      (by decide) (by decide),
    (C11_may_be_tracked envParallel state2 232 (by decide)).1⟩

/-! ## Layout calculator -/

/-- A positive number that has no bit in common with its predecessor is a
power of two. -/
theorem pow_two_of_and_pred (a : Nat) (ha : 0 < a) (h : (a - 1) &&& a = 0) :
    ∃ k, a = 2 ^ k := by
  induction a using Nat.strong_induction_on with
  | _ a ih =>
    by_cases h1 : a = 1
    · exact ⟨0, by simp [h1]⟩
    · have hdiv : ((a - 1) / 2) &&& (a / 2) = 0 := by rw [← Nat.and_div_two, h]
      by_cases hev : a % 2 = 0
      · have e : (a - 1) / 2 = a / 2 - 1 := by omega
        rw [e] at hdiv
        obtain ⟨k, hk⟩ := ih (a / 2) (by omega) (by omega) hdiv
        exact ⟨k + 1, by rw [pow_succ]; omega⟩
      · have e : (a - 1) / 2 = a / 2 := by omega
        rw [e, Nat.and_self] at hdiv
        omega

theorem SIZE_MODULUS_pos (P : Platform) : 0 < SIZE_MODULUS P := by
  unfold SIZE_MODULUS
  positivity

/-- The integer round-up lies between its argument and one step above it. -/
theorem specRoundUp_bounds (x a : Int) (ha : 0 < a) :
    x ≤ specRoundUp x a ∧ specRoundUp x a < x + a ∧ a ∣ specRoundUp x a := by
  unfold specRoundUp
  have h1 := Int.ediv_mul_le (x + a - 1) (ne_of_gt ha)
  have h2 := Int.lt_ediv_add_one_mul_self (x + a - 1) ha
  rw [add_mul, one_mul] at h2
  exact ⟨by omega, by omega, Int.dvd_mul_left _ _⟩

theorem specRoundUp_mono (x y a : Int) (ha : 0 < a) (hxy : x ≤ y) :
    specRoundUp x a ≤ specRoundUp y a := by
  unfold specRoundUp
  exact Int.mul_le_mul_of_nonneg_right (Int.ediv_le_ediv ha (by omega)) (le_of_lt ha)

/-- Within the range of `size_t` the modelled macro is the integer round-up. -/
theorem round_up_eq_spec (P : Platform) (x a : Int) (ha : 0 < a) (hx : 0 ≤ x)
    (hfit : x + a < SIZE_MODULUS P) :
    _Py_SIZE_ROUND_UP P x a = specRoundUp x a := by
  have hb := specRoundUp_bounds x a ha
  unfold specRoundUp at hb
  have e1 : x % SIZE_MODULUS P = x := Int.emod_eq_of_lt hx (by omega)
  have e2 : a % SIZE_MODULUS P = a := Int.emod_eq_of_lt (le_of_lt ha) (by omega)
  have e3 : (x + a - 1) % SIZE_MODULUS P = x + a - 1 :=
    Int.emod_eq_of_lt (by omega) (by omega)
  have e4 : ((x + a - 1) / a * a) % SIZE_MODULUS P = (x + a - 1) / a * a :=
    Int.emod_eq_of_lt (by omega) (by omega)
  unfold _Py_SIZE_ROUND_UP size_t specRoundUp
  rw [e1, e2, e3, e4]

/-- C12. `_PyObject_VAR_SIZE(type, n)` is `_Py_SIZE_ROUND_UP` applied to
`tp_basicsize + n * tp_itemsize` and `SIZEOF_VOID_P`; whenever the unrounded
size is non-negative and fits, with one pointer width of slack, in `size_t`,
this is the spec's `roundUp(basicSize + n * itemSize, pointerWidth)` with
`roundUp(x, a) = ((x + a - 1) / a) * a`. A header that passed the build check
has a pointer width that is a power of two. For `n = 0` the size is the
round-up of `tp_basicsize`, and `basicSize = 16`, `itemSize = 8`, `n = 3`,
`pointerWidth = 8` gives 40. -/
theorem C12_var_size_is_round_up (P : Platform) (t : PyTypeObject) (n : Int) :
    _PyObject_VAR_SIZE P t n
      = _Py_SIZE_ROUND_UP P (t.tp_basicsize + n * t.tp_itemsize) P.SIZEOF_VOID_P ∧
    (0 < P.SIZEOF_VOID_P → 0 ≤ t.tp_basicsize + n * t.tp_itemsize →
      t.tp_basicsize + n * t.tp_itemsize + P.SIZEOF_VOID_P < SIZE_MODULUS P →
      _PyObject_VAR_SIZE P t n
        = specVariableSize t.tp_basicsize t.tp_itemsize n P.SIZEOF_VOID_P ∧
      specVariableSize t.tp_basicsize t.tp_itemsize n P.SIZEOF_VOID_P
        = ((t.tp_basicsize + n * t.tp_itemsize + P.SIZEOF_VOID_P - 1) / P.SIZEOF_VOID_P)
            * P.SIZEOF_VOID_P) ∧
    (0 < P.SIZEOF_VOID_P → 0 ≤ t.tp_basicsize →
      t.tp_basicsize + P.SIZEOF_VOID_P < SIZE_MODULUS P →
      _PyObject_VAR_SIZE P t 0 = specRoundUp t.tp_basicsize P.SIZEOF_VOID_P) ∧
    (buildAccepted P = true → 0 < P.SIZEOF_VOID_P → ∃ k, P.SIZEOF_VOID_P = 2 ^ k) ∧
    _PyObject_VAR_SIZE platform64 exampleVarType 3 = 40 := by
  refine ⟨rfl, ?_, ?_, ?_, by decide⟩
  · intro ha hs hfit
    refine ⟨?_, rfl⟩
    unfold _PyObject_VAR_SIZE specVariableSize
    exact round_up_eq_spec P _ _ (by exact_mod_cast ha) hs hfit
  · intro ha hs hfit
    unfold _PyObject_VAR_SIZE
    rw [zero_mul, add_zero]
    exact round_up_eq_spec P _ _ (by exact_mod_cast ha) hs hfit
  · intro hb ha
    unfold buildAccepted at hb
    exact pow_two_of_and_pred _ ha (by simpa using hb)

/-- Instance of C12: the spec's example on a 64-bit platform. -/
theorem C12_var_size_is_round_up_witness :
    _PyObject_VAR_SIZE platform64 exampleVarType 3
        = specVariableSize 16 8 3 8 ∧
    specVariableSize 16 8 3 8 = ((16 + 3 * 8 + 8 - 1) / 8) * 8 ∧
    _PyObject_VAR_SIZE platform64 exampleVarType 0 = specRoundUp 16 8 ∧
    (∃ k, platform64.SIZEOF_VOID_P = 2 ^ k) :=
  ⟨((C12_var_size_is_round_up platform64 exampleVarType 3).2.1
      (by decide) (by decide) (by decide)).1,
    ((C12_var_size_is_round_up platform64 exampleVarType 3).2.1
      (by decide) (by decide) (by decide)).2,
    (C12_var_size_is_round_up platform64 exampleVarType 3).2.2.1
      (by decide) (by decide) (by decide),
    (C12_var_size_is_round_up platform64 exampleVarType 3).2.2.2.1 (by decide) (by decide)⟩

/-- C13. Whenever the unrounded size `s = tp_basicsize + n * tp_itemsize` is
non-negative (as it is for non-negative sizes and a non-negative item count)
and fits, with one pointer width of slack, in `size_t`,
`_PyObject_VAR_SIZE(type, n)` is the least multiple of `SIZEOF_VOID_P` at or
above `s`: it is divisible by `SIZEOF_VOID_P`, it is at least `s`, it is less
than `s + SIZEOF_VOID_P`, and no multiple of `SIZEOF_VOID_P` that is at least
`s` is smaller. -/
theorem C13_var_size_aligned (P : Platform) (t : PyTypeObject) (n : Int)
    (ha : 0 < P.SIZEOF_VOID_P)
    (hs : 0 ≤ t.tp_basicsize + n * t.tp_itemsize)
    (hfit : t.tp_basicsize + n * t.tp_itemsize + P.SIZEOF_VOID_P < SIZE_MODULUS P) :
    (P.SIZEOF_VOID_P : Int) ∣ _PyObject_VAR_SIZE P t n ∧
    t.tp_basicsize + n * t.tp_itemsize ≤ _PyObject_VAR_SIZE P t n ∧
    _PyObject_VAR_SIZE P t n < t.tp_basicsize + n * t.tp_itemsize + P.SIZEOF_VOID_P ∧
    ∀ m : Int, (P.SIZEOF_VOID_P : Int) ∣ m → t.tp_basicsize + n * t.tp_itemsize ≤ m →
      _PyObject_VAR_SIZE P t n ≤ m := by
  have ha1 : (0 : Int) < P.SIZEOF_VOID_P := by exact_mod_cast ha
  have he : _PyObject_VAR_SIZE P t n
      = specRoundUp (t.tp_basicsize + n * t.tp_itemsize) P.SIZEOF_VOID_P :=
    round_up_eq_spec P _ _ ha1 hs hfit
  obtain ⟨h1, h2, h3⟩ := specRoundUp_bounds (t.tp_basicsize + n * t.tp_itemsize)
    P.SIZEOF_VOID_P ha1
  rw [he]
  refine ⟨h3, h1, h2, ?_⟩
  intro m hm hsm
  obtain ⟨c, rfl⟩ := hm
  obtain ⟨q, hq⟩ := h3
  rw [hq] at h2 ⊢
  by_contra hlt
  have hcq : c < q := by
    by_contra hge
    exact hlt (Int.mul_le_mul_of_nonneg_left (not_lt.1 hge) (le_of_lt ha1))
  have : (P.SIZEOF_VOID_P : Int) * (c + 1) ≤ P.SIZEOF_VOID_P * q :=
    Int.mul_le_mul_of_nonneg_left (by omega) (le_of_lt ha1)
  rw [mul_add, mul_one] at this
  omega

/-- Instance of C13: the spec's example, 40 bytes for an unrounded size of 40,
and a type of basic size 17 without items, 24 bytes. -/
theorem C13_var_size_aligned_witness :
    ((platform64.SIZEOF_VOID_P : Int) ∣ _PyObject_VAR_SIZE platform64 ⟨17, 0, 0, 0, none⟩ 0 ∧
    (17 : Int) + 0 * 0 ≤ _PyObject_VAR_SIZE platform64 ⟨17, 0, 0, 0, none⟩ 0 ∧
    _PyObject_VAR_SIZE platform64 ⟨17, 0, 0, 0, none⟩ 0
      < 17 + 0 * 0 + platform64.SIZEOF_VOID_P ∧
    ∀ m : Int, (platform64.SIZEOF_VOID_P : Int) ∣ m → (17 : Int) + 0 * 0 ≤ m →
      _PyObject_VAR_SIZE platform64 ⟨17, 0, 0, 0, none⟩ 0 ≤ m) ∧
    _PyObject_VAR_SIZE platform64 ⟨17, 0, 0, 0, none⟩ 0 = 24 :=
  ⟨C13_var_size_aligned platform64 ⟨17, 0, 0, 0, none⟩ 0 (by decide) (by decide) (by decide),
    by decide⟩

/-- C14. `_PyObject_VAR_SIZE` is non-decreasing in the item count: for a type
with a non-negative item size and item counts `n <= m` for which the unrounded
size at `n` is non-negative (as it is for a non-negative basic size and
non-negative `n`) and the unrounded size at `m` fits, with one pointer width of
slack, in `size_t`, the size at `n` is at most the size at `m`. -/
theorem C14_var_size_monotone (P : Platform) (t : PyTypeObject) (n m : Int)
    (ha : 0 < P.SIZEOF_VOID_P) (hi : 0 ≤ t.tp_itemsize) (hnm : n ≤ m)
    (hs : 0 ≤ t.tp_basicsize + n * t.tp_itemsize)
    (hfit : t.tp_basicsize + m * t.tp_itemsize + P.SIZEOF_VOID_P < SIZE_MODULUS P) :
    _PyObject_VAR_SIZE P t n ≤ _PyObject_VAR_SIZE P t m := by
  have ha1 : (0 : Int) < P.SIZEOF_VOID_P := by exact_mod_cast ha
  have hle : t.tp_basicsize + n * t.tp_itemsize ≤ t.tp_basicsize + m * t.tp_itemsize := by
    have := Int.mul_le_mul_of_nonneg_right hnm hi
    omega
  have hn : _PyObject_VAR_SIZE P t n
      = specRoundUp (t.tp_basicsize + n * t.tp_itemsize) P.SIZEOF_VOID_P :=
    round_up_eq_spec P _ _ ha1 hs (by omega)
  have hm : _PyObject_VAR_SIZE P t m
      = specRoundUp (t.tp_basicsize + m * t.tp_itemsize) P.SIZEOF_VOID_P :=
    round_up_eq_spec P _ _ ha1 (by omega) hfit
  rw [hn, hm]
  exact specRoundUp_mono _ _ _ ha1 hle

/-- Instance of C14: two and three items of the spec's example type. -/
theorem C14_var_size_monotone_witness :
    _PyObject_VAR_SIZE platform64 exampleVarType 2
      ≤ _PyObject_VAR_SIZE platform64 exampleVarType 3 :=
  C14_var_size_monotone platform64 exampleVarType 2 3 (by decide) (by decide) (by decide)
    (by decide) (by decide)

/-! ## Weak references and the raw allocator -/

/-- C19. `PyObject_GET_WEAKREFS_LISTPTR(obj)` is the address of `obj` plus the
`tp_weaklistoffset` of its type, in bytes, and `PyType_SUPPORTS_WEAKREFS` holds
exactly when `tp_weaklistoffset > 0`: an offset of 0 and every negative offset
are reported as unsupported. -/
theorem C19_weakref_slot (E : Env) (o : Nat) (t : PyTypeObject) :
    PyObject_GET_WEAKREFS_LISTPTR E o = (o : Int) + (E.Py_TYPE o).tp_weaklistoffset ∧
    (PyType_SUPPORTS_WEAKREFS t = true ↔ t.tp_weaklistoffset > 0) ∧
    (t.tp_weaklistoffset = 0 → PyType_SUPPORTS_WEAKREFS t = false) ∧
    (t.tp_weaklistoffset < 0 → PyType_SUPPORTS_WEAKREFS t = false) := by
  refine ⟨rfl, by simp [PyType_SUPPORTS_WEAKREFS], ?_, ?_⟩
  · intro h; simp [PyType_SUPPORTS_WEAKREFS, h]
  · intro h
    simp only [PyType_SUPPORTS_WEAKREFS, decide_eq_false_iff_not]
    omega

/-- Instance of C19: an object at 4096 in an environment without weak
reference support, and types with the offsets 24, 0 and -8. -/
theorem C19_weakref_slot_witness :
    PyObject_GET_WEAKREFS_LISTPTR envPlain 4096 = 4096 ∧
    PyType_SUPPORTS_WEAKREFS ⟨32, 0, 0, 24, none⟩ = true ∧
    PyType_SUPPORTS_WEAKREFS ⟨32, 0, 0, 0, none⟩ = false ∧
    PyType_SUPPORTS_WEAKREFS ⟨32, 0, 0, -8, none⟩ = false :=
  ⟨(C19_weakref_slot envPlain 4096 ⟨32, 0, 0, 24, none⟩).1,
    (C19_weakref_slot envPlain 4096 ⟨32, 0, 0, 24, none⟩).2.1.2 (by decide),
    (C19_weakref_slot envPlain 4096 ⟨32, 0, 0, 0, none⟩).2.2.1 rfl,
    (C19_weakref_slot envPlain 4096 ⟨32, 0, 0, -8, none⟩).2.2.2 (by decide)⟩

/-- A block handed out by the model lies above every live block, is recorded
with the size asked for, and ends inside the arena. -/
theorem PyObject_Malloc_fresh (a : AllocState) (n : Nat) (hw : a.WF)
    (hp : (PyObject_Malloc a n).1 ≠ NULL) :
    (∀ b ∈ a.live, b.1 + max b.2 1 ≤ (PyObject_Malloc a n).1) ∧
    (PyObject_Malloc a n).2.live = ((PyObject_Malloc a n).1, n) :: a.live ∧
    (PyObject_Malloc a n).1 + n ≤ a.limit ∧
    (PyObject_Malloc a n).2.WF := by
  unfold PyObject_Malloc at hp ⊢
  by_cases h : a.brk + max n 1 ≤ a.limit
  · rw [if_pos h]
    refine ⟨fun b hb => (hw.below b hb).2, rfl, ?_, ?_, ?_⟩
    · have := le_max_left n 1
      show a.brk + n ≤ a.limit
      omega
    · have := hw.brk_pos
      show 0 < a.brk + max n 1
      omega
    · intro b hb
      rcases List.mem_cons.1 hb with e | e
      · subst e
        exact ⟨hw.brk_pos, le_refl _⟩
      · have := hw.below b e
        exact ⟨this.1, by show b.1 + max b.2 1 ≤ a.brk + max n 1; omega⟩
  · simp only [if_neg h] at hp
    exact absurd rfl hp

/-- C20. In the model of the raw allocator, for every size `n`,
`PyObject_Realloc(NULL, n)` is `PyObject_Malloc(n)`: the same pointer and the
same allocator state, hence null exactly when `PyObject_Malloc(n)` is null;
and when it is not null, in a well-formed allocator state the block lies above
every live block, is recorded with `n` bytes and ends inside the arena. In
every build configuration the macros `PyObject_MALLOC`, `PyObject_REALLOC`
and `PyObject_FREE` resolve to functions of one and the same family. -/
theorem C20_realloc_null_is_malloc (a : AllocState) (n : Nat) (B : AllocBuild) :
    PyObject_Realloc a NULL n = PyObject_Malloc a n ∧
    ((PyObject_Realloc a NULL n).1 = NULL ↔ (PyObject_Malloc a n).1 = NULL) ∧
    (a.WF → (PyObject_Realloc a NULL n).1 ≠ NULL →
      (∀ b ∈ a.live, b.1 + max b.2 1 ≤ (PyObject_Realloc a NULL n).1) ∧
      (PyObject_Realloc a NULL n).2.live = ((PyObject_Realloc a NULL n).1, n) :: a.live ∧
      (PyObject_Realloc a NULL n).1 + n ≤ a.limit) ∧
    (PyObject_REALLOC_family B = PyObject_MALLOC_family B ∧
      PyObject_FREE_family B = PyObject_MALLOC_family B) := by
  have h : PyObject_Realloc a NULL n = PyObject_Malloc a n := by
    simp [PyObject_Realloc]
  refine ⟨h, by rw [h], ?_, rfl, rfl⟩
  intro hw hp
  rw [h] at hp ⊢
  have := PyObject_Malloc_fresh a n hw hp
  exact ⟨this.1, this.2.1, this.2.2.1⟩

/-- Instance of C20: 40 bytes from a fresh arena, and from an exhausted one. -/
theorem C20_realloc_null_is_malloc_witness :
    (PyObject_Realloc alloc0 NULL 40).1 = 64 ∧
    ((∀ b ∈ alloc0.live, b.1 + max b.2 1 ≤ (PyObject_Realloc alloc0 NULL 40).1) ∧
      (PyObject_Realloc alloc0 NULL 40).2.live
        = ((PyObject_Realloc alloc0 NULL 40).1, 40) :: alloc0.live ∧
      (PyObject_Realloc alloc0 NULL 40).1 + 40 ≤ alloc0.limit) ∧
    (PyObject_Realloc allocFull NULL 40).1 = NULL ∧
    (PyObject_Malloc allocFull 40).1 = NULL :=
  ⟨by decide,
    (C20_realloc_null_is_malloc alloc0 40 ⟨true, false⟩).2.2.1
      ⟨by decide, by decide⟩ (by decide),
    ((C20_realloc_null_is_malloc allocFull 40 ⟨true, false⟩).2.1).2 (by decide),
    by decide⟩

/-! ## Object header initialisation and allocation -/

@[simp]
theorem obj_modify_self (st : ObjState) (p : Nat) (f : PyObject → PyObject) :
    (st.modify p f).obj p = f (st.obj p) := by
  simp [ObjState.modify]

theorem obj_modify_of_ne (st : ObjState) (p a : Nat) (f : PyObject → PyObject)
    (h : a ≠ p) : (st.modify p f).obj a = st.obj a := by
  simp [ObjState.modify, h]

@[simp]
theorem heap_modify (st : ObjState) (p : Nat) (f : PyObject → PyObject) :
    (st.modify p f).heap = st.heap := rfl

/-- What `_PyObject_InitHead` leaves behind in the `WITH_PARALLEL` build. -/
theorem init_head_returns (X : ObjEnv) (st : ObjState) (op : Nat)
    (hp : X.WITH_PARALLEL = true) (hop : op ≠ NULL) (ht : (st.obj op).ob_type ≠ NULL) :
    ∃ st1, _PyObject_InitHead X st op = .returned op st1 ∧
      (st1.obj op).ob_refcnt = (st.obj op).ob_refcnt ∧
      (st1.obj op).ob_type = (st.obj op).ob_type ∧
      (st1.obj op).ob_size = (st.obj op).ob_size ∧
      (st1.obj op).is_px = X._Py_NOT_PARALLEL ∧
      (st1.obj op).px = X._Py_NOT_PARALLEL ∧
      (st1.obj op).px_flags = X.Py_PXFLAGS_ISPY ∧
      (st1.obj op).srw_lock = NULL ∧
      (st1.obj op).event = NULL ∧
      (st1.obj op).slist_entry_Next = NULL ∧
      (st1.obj op).orig_type = NULL ∧
      (∀ a, a ≠ op → st1.obj a = st.obj a) ∧ st1.heap = st.heap := by
  unfold _PyObject_InitHead
  cases h3 : X.Py_TRACE_REFS <;>
    simp [hp, hop, ht, h3, obj_modify_of_ne] <;>
    intro a ha <;> simp [obj_modify_of_ne, ha]

/-- `PyObject_INIT` on a real block with a real type returns the block with
the type and a refcount of 1, and touches no other header. -/
theorem init_returns (X : ObjEnv) (st : ObjState) (op tp : Nat)
    (hop : op ≠ NULL) (htp : tp ≠ NULL) :
    ∃ st1, PyObject_INIT X st op tp = .returned op st1 ∧
      (st1.obj op).ob_type = tp ∧ (st1.obj op).ob_refcnt = 1 ∧
      (st1.obj op).ob_size = (st.obj op).ob_size ∧
      (∀ a, a ≠ op → st1.obj a = st.obj a) ∧ st1.heap = st.heap := by
  unfold PyObject_INIT
  cases h1 : X.WITH_PARALLEL
  · simp [hop, _Py_NewReference]
    intro a ha; simp [obj_modify_of_ne, ha]
  · cases h2 : X.Py_PXCTX
    · obtain ⟨s2, he, h⟩ := init_head_returns X
        (st.modify op (fun h => { h with ob_type := tp })) op h1 hop (by simpa using htp)
      simp only [if_true, Bool.false_eq_true, if_false, if_neg hop, he]
      refine ⟨_, rfl, ?_, ?_, ?_, ?_, ?_⟩
      · simp [_Py_NewReference, h.2.1]
      · simp [_Py_NewReference]
      · simp [_Py_NewReference, h.2.2.1]
      · intro a ha
        simp [_Py_NewReference, obj_modify_of_ne, ha, h.2.2.2.2.2.2.2.2.2.2.1 a ha]
      · simp [_Py_NewReference, h.2.2.2.2.2.2.2.2.2.2.2]
    · simp [_PxObject_Init, hop]
      intro a ha; simp [obj_modify_of_ne, ha]

/-- `PyObject_INIT_VAR` on a real block with a real type returns the block
with the type, a refcount of 1 and the item count. -/
theorem init_var_returns (X : ObjEnv) (st : ObjState) (op tp : Nat) (n : Int)
    (hop : op ≠ NULL) (htp : tp ≠ NULL) :
    ∃ st1, PyObject_INIT_VAR X st op tp n = .returned op st1 ∧
      (st1.obj op).ob_type = tp ∧ (st1.obj op).ob_refcnt = 1 ∧
      (st1.obj op).ob_size = n ∧
      (∀ a, a ≠ op → st1.obj a = st.obj a) ∧ st1.heap = st.heap := by
  unfold PyObject_INIT_VAR
  cases h1 : X.WITH_PARALLEL
  · obtain ⟨s1, he, h⟩ := init_returns X
      (st.modify op (fun h => { h with ob_size := n })) op tp hop htp
    simp only [Bool.false_eq_true, if_false, if_neg hop, he]
    refine ⟨_, rfl, h.1, h.2.1, by simpa using h.2.2.1, ?_, by simpa using h.2.2.2.2⟩
    intro a ha
    rw [h.2.2.2.1 a ha, obj_modify_of_ne _ _ _ _ ha]
  · cases h2 : X.Py_PXCTX
    · obtain ⟨s2, he, h⟩ := init_head_returns X
        ((st.modify op (fun h => { h with ob_size := n })).modify op
          (fun h => { h with ob_type := tp })) op h1 hop (by simpa using htp)
      simp only [if_true, Bool.false_eq_true, if_false, if_neg hop, he]
      refine ⟨_, rfl, ?_, ?_, ?_, ?_, ?_⟩
      · simp [_Py_NewReference, h.2.1]
      · simp [_Py_NewReference]
      · simp [_Py_NewReference, h.2.2.1]
      · intro a ha
        simp [_Py_NewReference, obj_modify_of_ne, ha, h.2.2.2.2.2.2.2.2.2.2.1 a ha]
      · simp [_Py_NewReference, h.2.2.2.2.2.2.2.2.2.2.2]
    · simp [_PxObject_InitVar, _PxObject_Init, hop]
      intro a ha; simp [obj_modify_of_ne, ha]

/-- C15, evaluation of the code at the failing input. In the `WITH_PARALLEL`
build the macro `PyObject_NewVar(type, 512, 5)` passes the type alone to the
allocation function and evaluates to the integer 5, in either context; the
plain build's macro and the sibling `PyObject_GC_NewVar` of the
`WITH_PARALLEL` build pass both the type and the count and evaluate to the
result of the call. -/
theorem C15_newvar_macro_drops_count :
    PyObject_NewVar objEnvParallelSeq.toEnv 512 5
      = ⟨._PyObject_NewVar, [512], .integer 5⟩ ∧
    PyObject_NewVar objEnvParallelPx.toEnv 512 5
      = ⟨._PxObject_NewVar, [512], .integer 5⟩ ∧
    PyObject_NewVar objEnvPlain.toEnv 512 5
      = ⟨._PyObject_NewVar, [512, 5], .callResult⟩ ∧
    PyObject_GC_NewVar objEnvParallelSeq.toEnv 512 5
      = ⟨._PyObject_GC_NewVar, [512, 5], .callResult⟩ ∧
    PyObject_GC_NewVar objEnvParallelPx.toEnv 512 5
      = ⟨._PxObject_NewVar, [512, 5], .callResult⟩ := by
  decide

/-- C16. In the sequential context (plain build, or `Py_PXCTX` false), for a
real type object: `PyObject_NEW` passes exactly `tp_basicsize`, and
`PyObject_NEW_VAR` exactly `_PyObject_VAR_SIZE(type, n)`, converted to
`size_t`, to the raw allocator, and hands the block to `PyObject_Init`,
respectively `PyObject_InitVar`, with the type (and `n`). When the allocator
returns a block, the macro returns it, the block is recorded with that size,
and its header holds the type, a refcount of 1 (and the item count `n`); when
the allocator returns null, so does the macro. A size within the range of
`size_t` is passed unchanged. With `basicSize = 16`, `itemSize = 8` and a
pointer width of 8, `PyObject_NEW_VAR(type, 3)` allocates 40 bytes. -/
theorem C16_new_allocates_size (X : ObjEnv) (st : ObjState) (tp : Nat) (n : Int)
    (hseq : X.WITH_PARALLEL = false ∨ X.Py_PXCTX = false) (htp : tp ≠ NULL) :
    (PyObject_NEW X st tp
        = PyObject_Init X (PyObject_MALLOC X st (X.typeAt tp).tp_basicsize).2
            (PyObject_MALLOC X st (X.typeAt tp).tp_basicsize).1 tp ∧
      PyObject_MALLOC X st (X.typeAt tp).tp_basicsize
        = ((PyObject_Malloc st.heap
              (size_t X.toPlatform (X.typeAt tp).tp_basicsize).toNat).1,
            { st with heap := (PyObject_Malloc st.heap
              (size_t X.toPlatform (X.typeAt tp).tp_basicsize).toNat).2 }) ∧
      ((PyObject_MALLOC X st (X.typeAt tp).tp_basicsize).1 ≠ NULL →
        ∃ st1, PyObject_NEW X st tp
            = .returned (PyObject_MALLOC X st (X.typeAt tp).tp_basicsize).1 st1 ∧
          st1.heap.live = ((PyObject_MALLOC X st (X.typeAt tp).tp_basicsize).1,
              (size_t X.toPlatform (X.typeAt tp).tp_basicsize).toNat) :: st.heap.live ∧
          (st1.obj (PyObject_MALLOC X st (X.typeAt tp).tp_basicsize).1).ob_type = tp ∧
          (st1.obj (PyObject_MALLOC X st (X.typeAt tp).tp_basicsize).1).ob_refcnt = 1) ∧
      ((PyObject_MALLOC X st (X.typeAt tp).tp_basicsize).1 = NULL →
        (PyObject_NEW X st tp).value = some NULL)) ∧
    (PyObject_NEW_VAR X st tp n
        = PyObject_InitVar X
            (PyObject_MALLOC X st (_PyObject_VAR_SIZE X.toPlatform (X.typeAt tp) n)).2
            (PyObject_MALLOC X st (_PyObject_VAR_SIZE X.toPlatform (X.typeAt tp) n)).1 tp n ∧
      PyObject_MALLOC X st (_PyObject_VAR_SIZE X.toPlatform (X.typeAt tp) n)
        = ((PyObject_Malloc st.heap
              (size_t X.toPlatform (_PyObject_VAR_SIZE X.toPlatform (X.typeAt tp) n)).toNat).1,
            { st with heap := (PyObject_Malloc st.heap
              (size_t X.toPlatform
                (_PyObject_VAR_SIZE X.toPlatform (X.typeAt tp) n)).toNat).2 }) ∧
      ((PyObject_MALLOC X st (_PyObject_VAR_SIZE X.toPlatform (X.typeAt tp) n)).1 ≠ NULL →
        ∃ st1, PyObject_NEW_VAR X st tp n
            = .returned
                (PyObject_MALLOC X st (_PyObject_VAR_SIZE X.toPlatform (X.typeAt tp) n)).1
                st1 ∧
          st1.heap.live
            = ((PyObject_MALLOC X st (_PyObject_VAR_SIZE X.toPlatform (X.typeAt tp) n)).1,
                (size_t X.toPlatform
                  (_PyObject_VAR_SIZE X.toPlatform (X.typeAt tp) n)).toNat)
              :: st.heap.live ∧
          (st1.obj (PyObject_MALLOC X st
            (_PyObject_VAR_SIZE X.toPlatform (X.typeAt tp) n)).1).ob_type = tp ∧
          (st1.obj (PyObject_MALLOC X st
            (_PyObject_VAR_SIZE X.toPlatform (X.typeAt tp) n)).1).ob_refcnt = 1 ∧
          (st1.obj (PyObject_MALLOC X st
            (_PyObject_VAR_SIZE X.toPlatform (X.typeAt tp) n)).1).ob_size = n) ∧
      ((PyObject_MALLOC X st (_PyObject_VAR_SIZE X.toPlatform (X.typeAt tp) n)).1 = NULL →
        (PyObject_NEW_VAR X st tp n).value = some NULL)) ∧
    (∀ x : Int, 0 ≤ x → x < SIZE_MODULUS X.toPlatform →
      ((size_t X.toPlatform x).toNat : Int) = x) ∧
    _PyObject_SIZE (X.typeAt tp) = (X.typeAt tp).tp_basicsize ∧
    ((PyObject_NEW_VAR objEnvPlain objState0 512 3).state.heap.live = [(64, 40)] ∧
      (PyObject_NEW_VAR objEnvParallelSeq objState0 512 3).state.heap.live = [(64, 40)]) := by
  have hnew : ∀ tp1 : Nat, tp1 ≠ NULL → PyObject_NEW X st tp1
      = PyObject_Init X (PyObject_MALLOC X st (X.typeAt tp1).tp_basicsize).2
          (PyObject_MALLOC X st (X.typeAt tp1).tp_basicsize).1 tp1 := by
    intro tp1 h1
    unfold PyObject_NEW _PyObject_SIZE
    rcases hseq with h | h <;> simp [h, h1]
  have hvar : PyObject_NEW_VAR X st tp n
      = PyObject_InitVar X
          (PyObject_MALLOC X st (_PyObject_VAR_SIZE X.toPlatform (X.typeAt tp) n)).2
          (PyObject_MALLOC X st (_PyObject_VAR_SIZE X.toPlatform (X.typeAt tp) n)).1 tp n := by
    unfold PyObject_NEW_VAR
    rcases hseq with h | h <;> simp [h, htp]
  have hm : ∀ x : Int, PyObject_MALLOC X st x
      = ((PyObject_Malloc st.heap (size_t X.toPlatform x).toNat).1,
          { st with heap := (PyObject_Malloc st.heap (size_t X.toPlatform x).toNat).2 }) := by
    intro x
    unfold PyObject_MALLOC
    cases PyObject_MALLOC_family X.allocBuild <;> rfl
  have hlive : ∀ x : Int, (PyObject_MALLOC X st x).1 ≠ NULL →
      (PyObject_MALLOC X st x).2.heap.live
        = ((PyObject_MALLOC X st x).1, (size_t X.toPlatform x).toNat) :: st.heap.live := by
    intro x hx
    rw [hm] at hx ⊢
    simp only at hx ⊢
    unfold PyObject_Malloc at hx ⊢
    by_cases hc : st.heap.brk + max (size_t X.toPlatform x).toNat 1 ≤ st.heap.limit
    · simp only [if_pos hc]
    · simp only [if_neg hc] at hx
      exact absurd rfl hx
  refine ⟨⟨hnew tp htp, hm _, ?_, ?_⟩, ⟨hvar, hm _, ?_, ?_⟩, ?_, rfl, by decide, by decide⟩
  · intro hp
    obtain ⟨st1, he, h⟩ := init_returns X
      (PyObject_MALLOC X st (X.typeAt tp).tp_basicsize).2 _ tp hp htp
    refine ⟨st1, ?_, ?_, h.1, h.2.1⟩
    · rw [hnew tp htp, PyObject_Init, if_neg hp, he]
    · rw [h.2.2.2.2, hlive _ hp]
  · intro hp
    rw [hnew tp htp, PyObject_Init, if_pos hp]
    rfl
  · intro hp
    obtain ⟨st1, he, h⟩ := init_var_returns X
      (PyObject_MALLOC X st (_PyObject_VAR_SIZE X.toPlatform (X.typeAt tp) n)).2 _ tp n hp htp
    refine ⟨st1, ?_, ?_, h.1, h.2.1, h.2.2.1⟩
    · rw [hvar, PyObject_InitVar, if_neg hp, he]
    · rw [h.2.2.2.2, hlive _ hp]
  · intro hp
    rw [hvar, PyObject_InitVar, if_pos hp]
    rfl
  · intro x h0 h1
    unfold size_t
    rw [Int.emod_eq_of_lt h0 h1]
    exact Int.toNat_of_nonneg h0

/-- Instance of C16: the spec's example type in the plain build, from a fresh
arena: the block at 64 is recorded with 40 bytes, and its header holds the
type at 512, a refcount of 1 and 3 items. -/
theorem C16_new_allocates_size_witness :
    (PyObject_MALLOC objEnvPlain objState0
      (_PyObject_VAR_SIZE objEnvPlain.toPlatform (objEnvPlain.typeAt 512) 3)).1 = 64 ∧
    ∃ st1, PyObject_NEW_VAR objEnvPlain objState0 512 3
        = .returned
            (PyObject_MALLOC objEnvPlain objState0
              (_PyObject_VAR_SIZE objEnvPlain.toPlatform (objEnvPlain.typeAt 512) 3)).1
            st1 ∧
      st1.heap.live
        = ((PyObject_MALLOC objEnvPlain objState0
              (_PyObject_VAR_SIZE objEnvPlain.toPlatform (objEnvPlain.typeAt 512) 3)).1,
            (size_t objEnvPlain.toPlatform
              (_PyObject_VAR_SIZE objEnvPlain.toPlatform (objEnvPlain.typeAt 512) 3)).toNat)
          :: objState0.heap.live ∧
      (st1.obj (PyObject_MALLOC objEnvPlain objState0
        (_PyObject_VAR_SIZE objEnvPlain.toPlatform (objEnvPlain.typeAt 512) 3)).1).ob_type
          = 512 ∧
      (st1.obj (PyObject_MALLOC objEnvPlain objState0
        (_PyObject_VAR_SIZE objEnvPlain.toPlatform (objEnvPlain.typeAt 512) 3)).1).ob_refcnt
          = 1 ∧
      (st1.obj (PyObject_MALLOC objEnvPlain objState0
        (_PyObject_VAR_SIZE objEnvPlain.toPlatform (objEnvPlain.typeAt 512) 3)).1).ob_size
          = 3 :=
  ⟨by decide,
    (C16_new_allocates_size objEnvPlain objState0 512 3 (Or.inl rfl) (by decide)).2.1.2.2.1
      (by decide)⟩

/-- C17. For every non-null block and non-null type, in both builds and both
contexts, `PyObject_INIT` returns that same block, with its type field set to
the type and its refcount set to 1, whatever the header held before; the
item count of the block, every other header and the allocator are left as
they were. -/
theorem C17_init_sets_type_and_refcount (X : ObjEnv) (st : ObjState) (op tp : Nat)
    (hop : op ≠ NULL) (htp : tp ≠ NULL) :
    ∃ st1, PyObject_INIT X st op tp = .returned op st1 ∧
      (st1.obj op).ob_type = tp ∧ (st1.obj op).ob_refcnt = 1 ∧
      (st1.obj op).ob_size = (st.obj op).ob_size ∧
      (∀ a, a ≠ op → st1.obj a = st.obj a) ∧ st1.heap = st.heap :=
  init_returns X st op tp hop htp

/-- Instance of C17: a block of garbage at 64 and the type at 512, in the
`WITH_PARALLEL` build under the sequential context. -/
theorem C17_init_sets_type_and_refcount_witness :
    (objState0.obj 64).ob_type = 5 ∧ (objState0.obj 64).ob_refcnt = 77 ∧
    ∃ st1, PyObject_INIT objEnvParallelSeq objState0 64 512 = .returned 64 st1 ∧
      (st1.obj 64).ob_type = 512 ∧ (st1.obj 64).ob_refcnt = 1 ∧
      (st1.obj 64).ob_size = (objState0.obj 64).ob_size ∧
      (∀ a, a ≠ 64 → st1.obj a = objState0.obj a) ∧ st1.heap = objState0.heap :=
  ⟨by decide, by decide,
    C17_init_sets_type_and_refcount objEnvParallelSeq objState0 64 512 (by decide) (by decide)⟩

/-- C18, as stated, fails in the `WITH_PARALLEL` build under the sequential
context (`Py_PXCTX` false). The header at 64 holds 15 in `srw_lock`, 16 in
`event`, 13 in `slist_entry.Next`, 17 in `orig_type` and 11 in `is_px`;
`PyObject_INIT` returns and all five fields have been written: the lock, the
event, the list entry and the original type are null and `is_px` is
`_Py_NOT_PARALLEL`. -/
theorem C18_counterexample :
    objEnvParallelSeq.WITH_PARALLEL = true ∧ objEnvParallelSeq.Py_PXCTX = false ∧
    (objState0.obj 64).srw_lock = 15 ∧ (objState0.obj 64).event = 16 ∧
    (objState0.obj 64).slist_entry_Next = 13 ∧ (objState0.obj 64).orig_type = 17 ∧
    (objState0.obj 64).is_px = 11 ∧
    (PyObject_INIT objEnvParallelSeq objState0 64 512).value = some 64 ∧
    ((PyObject_INIT objEnvParallelSeq objState0 64 512).state.obj 64).srw_lock = NULL ∧
    ((PyObject_INIT objEnvParallelSeq objState0 64 512).state.obj 64).event = NULL ∧
    ((PyObject_INIT objEnvParallelSeq objState0 64 512).state.obj 64).slist_entry_Next
      = NULL ∧
    ((PyObject_INIT objEnvParallelSeq objState0 64 512).state.obj 64).orig_type = NULL ∧
    ((PyObject_INIT objEnvParallelSeq objState0 64 512).state.obj 64).is_px
      = objEnvParallelSeq._Py_NOT_PARALLEL := by
  decide

/-- C18, amended. For every non-null block and non-null type: in the build
without `WITH_PARALLEL`, `PyObject_INIT` writes none of the fields of the
ConcurrentObjectState; in the `WITH_PARALLEL` build it initialises them under
both contexts: under the concurrent context to `contextFlag = concurrent`,
`lock = null`, `event = null`, `listEntry = null`, `originalType = null`, and
under the sequential context, through `_PyObject_InitHead`, to
`is_px = px = _Py_NOT_PARALLEL`, `px_flags = Py_PXFLAGS_ISPY`, `lock = null`,
`event = null`, `listEntry = null`, `originalType = null`. -/
theorem C18_init_concurrent_state (X : ObjEnv) (st : ObjState) (op tp : Nat)
    (hop : op ≠ NULL) (htp : tp ≠ NULL) :
    (X.WITH_PARALLEL = false →
      ∃ st1, PyObject_INIT X st op tp = .returned op st1 ∧
        (st1.obj op).is_px = (st.obj op).is_px ∧ (st1.obj op).px = (st.obj op).px ∧
        (st1.obj op).px_flags = (st.obj op).px_flags ∧
        (st1.obj op).srw_lock = (st.obj op).srw_lock ∧
        (st1.obj op).event = (st.obj op).event ∧
        (st1.obj op).slist_entry_Next = (st.obj op).slist_entry_Next ∧
        (st1.obj op).orig_type = (st.obj op).orig_type) ∧
    (X.WITH_PARALLEL = true → X.Py_PXCTX = true →
      ∃ st1, PyObject_INIT X st op tp = .returned op st1 ∧
        (st1.obj op).is_px = X.contextFlagConcurrent ∧
        (st1.obj op).srw_lock = NULL ∧ (st1.obj op).event = NULL ∧
        (st1.obj op).slist_entry_Next = NULL ∧ (st1.obj op).orig_type = NULL) ∧
    (X.WITH_PARALLEL = true → X.Py_PXCTX = false →
      ∃ st1, PyObject_INIT X st op tp = .returned op st1 ∧
        (st1.obj op).is_px = X._Py_NOT_PARALLEL ∧ (st1.obj op).px = X._Py_NOT_PARALLEL ∧
        (st1.obj op).px_flags = X.Py_PXFLAGS_ISPY ∧
        (st1.obj op).srw_lock = NULL ∧ (st1.obj op).event = NULL ∧
        (st1.obj op).slist_entry_Next = NULL ∧ (st1.obj op).orig_type = NULL) := by
  refine ⟨?_, ?_, ?_⟩
  · intro h1
    unfold PyObject_INIT
    simp [h1, hop, _Py_NewReference]
  · intro h1 h2
    unfold PyObject_INIT
    simp [h1, h2, _PxObject_Init, hop]
  · intro h1 h2
    obtain ⟨s2, he, h⟩ := init_head_returns X
      (st.modify op (fun h => { h with ob_type := tp })) op h1 hop (by simpa using htp)
    unfold PyObject_INIT
    simp only [h1, h2, if_true, Bool.false_eq_true, if_false, if_neg hop, he]
    obtain ⟨-, -, -, a1, a2, a3, a4, a5, a6, a7, -, -⟩ := h
    refine ⟨_, rfl, ?_, ?_, ?_, ?_, ?_, ?_, ?_⟩ <;> simp [_Py_NewReference, *]

/-- Instance of C18 amended: the block of garbage at 64 in the plain build,
under the concurrent context and under the sequential context of the
`WITH_PARALLEL` build. -/
theorem C18_init_concurrent_state_witness :
    (∃ st1, PyObject_INIT objEnvPlain objState0 64 512 = .returned 64 st1 ∧
        (st1.obj 64).is_px = (objState0.obj 64).is_px ∧
        (st1.obj 64).px = (objState0.obj 64).px ∧
        (st1.obj 64).px_flags = (objState0.obj 64).px_flags ∧
        (st1.obj 64).srw_lock = (objState0.obj 64).srw_lock ∧
        (st1.obj 64).event = (objState0.obj 64).event ∧
        (st1.obj 64).slist_entry_Next = (objState0.obj 64).slist_entry_Next ∧
        (st1.obj 64).orig_type = (objState0.obj 64).orig_type) ∧
    (∃ st1, PyObject_INIT objEnvParallelPx objState0 64 512 = .returned 64 st1 ∧
        (st1.obj 64).is_px = objEnvParallelPx.contextFlagConcurrent ∧
        (st1.obj 64).srw_lock = NULL ∧ (st1.obj 64).event = NULL ∧
        (st1.obj 64).slist_entry_Next = NULL ∧ (st1.obj 64).orig_type = NULL) ∧
    (∃ st1, PyObject_INIT objEnvParallelSeq objState0 64 512 = .returned 64 st1 ∧
        (st1.obj 64).is_px = objEnvParallelSeq._Py_NOT_PARALLEL ∧
        (st1.obj 64).px = objEnvParallelSeq._Py_NOT_PARALLEL ∧
        (st1.obj 64).px_flags = objEnvParallelSeq.Py_PXFLAGS_ISPY ∧
        (st1.obj 64).srw_lock = NULL ∧ (st1.obj 64).event = NULL ∧
        (st1.obj 64).slist_entry_Next = NULL ∧ (st1.obj 64).orig_type = NULL) :=
  ⟨(C18_init_concurrent_state objEnvPlain objState0 64 512 (by decide) (by decide)).1 rfl,
    (C18_init_concurrent_state objEnvParallelPx objState0 64 512
      (by decide) (by decide)).2.1 rfl rfl,
    (C18_init_concurrent_state objEnvParallelSeq objState0 64 512
      (by decide) (by decide)).2.2 rfl rfl⟩

/-! ## Tracking order -/

/-- The `gc_prev` walk reads a chain back to front. -/
theorem walkPrev_of_linked {s : GCState} {a b : Nat} {l : List Nat}
    (h : Linked s a l b) (ha : a ∉ l) (fuel : Nat) (hf : l.length < fuel) :
    walkPrev s a fuel (s.mem b).gc_prev = some l.reverse := by
  induction l using List.reverseRecOn generalizing b fuel with
  | nil =>
    simp only [Linked] at h
    cases fuel with
    | zero => simp at hf
    | succ n => simp [walkPrev, h.2]
  | append_singleton xs x ih =>
    rw [Linked.append_iff] at h
    obtain ⟨h1, h2⟩ := h
    simp only [Linked] at h2
    cases fuel with
    | zero => simp at hf
    | succ n =>
      have hx : x ≠ a := fun e => ha (by simp [e])
      have hxs : a ∉ xs := fun e => ha (by simp [e])
      simp only [walkPrev, h2.2, if_neg hx]
      rw [ih h1 hxs n (by simpa using hf)]
      simp

/-- The backward walk over a well-formed ring finds its members in reverse. -/
theorem WellFormedRing.members_rev {s : GCState} {l : List Nat} (h : WellFormedRing s l)
    (fuel : Nat) (hf : l.length < fuel) : ringMembersRev s fuel = some l.reverse := by
  have hz : s._PyGC_generation0 ∉ l := (List.nodup_cons.1 h.nodup).1
  exact walkPrev_of_linked h.linked hz fuel hf

/-- The heads of the log after removing a head that is not in it. -/
theorem map_fst_filter_of_not_mem (h : List (Nat × Nat)) (g : Nat)
    (hg : g ∉ h.map Prod.fst) :
    (h.filter (fun p => p.1 != g)).map Prod.fst = h.map Prod.fst := by
  have : h.filter (fun p => p.1 != g) = h := by
    rw [List.filter_eq_self]
    intro p hp
    have : p.1 ≠ g := fun e => hg (List.mem_map.2 ⟨p, hp, e⟩)
    simpa using this
  rw [this]

/-- The heads of the log after removing a head, when the heads are distinct. -/
theorem map_fst_filter_eq_erase (h : List (Nat × Nat)) (g : Nat)
    (hnd : (h.map Prod.fst).Nodup) :
    (h.filter (fun p => p.1 != g)).map Prod.fst = (h.map Prod.fst).erase g := by
  rw [hnd.erase_eq_filter, List.filter_map]
  rfl

/-- A run that respects the preconditions returns, and the ring it leaves has
the heads of the log as its members, in the order of the log. -/
theorem run_log {E : Env} {s : GCState} {h : List (Nat × Nat)} {cs : List Call} (i : Nat)
    (hi : TrackingInv s (h.map Prod.fst)) (hr : Respects E s cs) :
    ∃ s1, run E s cs = .returned s1 ∧
      TrackingInv s1 ((trackingLog E h i cs).map Prod.fst) := by
  induction cs generalizing s h i with
  | nil => exact ⟨s, rfl, hi⟩
  | cons c cs ih =>
    obtain ⟨hc, hrest⟩ := hr
    have hstep : ∃ s1, exec E s c = .returned s1 ∧
        TrackingInv s1 ((recordCall E h i c).map Prod.fst) := by
      cases c with
      | track o =>
        obtain ⟨h1, h2⟩ := hc
        rcases is_tracked_false h1 with ⟨hp1, hp2⟩ | ⟨hg, hu⟩
        · have hnull : _Py_AS_GC E o = NULL := by simp [_Py_AS_GC, hp1, hp2]
          refine ⟨s, by simp [exec, _PyObject_GC_TRACK, hp1, hp2], ?_⟩
          simp only [recordCall, if_pos hnull]
          exact hi
        · have hgl : _Py_AS_GC E o ∉ h.map Prod.fst := (hi.untracked_iff _ hg h2).1 hu
          refine ⟨_, (hi.track_step hg h2 hu).1, ?_⟩
          simp only [recordCall, if_neg hg, List.map_append, List.map_cons, List.map_nil]
          rw [map_fst_filter_of_not_mem h _ hgl]
          exact (hi.track_step hg h2 hu).2
      | untrack o =>
        obtain ⟨h1, h2⟩ := hc
        obtain ⟨hg, hu⟩ := is_tracked_true h1
        refine ⟨_, (hi.untrack_step hg h2 hu).1, ?_⟩
        simp only [recordCall]
        rw [map_fst_filter_eq_erase h _ (List.nodup_cons.1 hi.ring.nodup).2]
        exact (hi.untrack_step hg h2 hu).2
    obtain ⟨s1, he, hi1⟩ := hstep
    rw [he] at hrest
    obtain ⟨s2, hrun, hi2⟩ := ih (i + 1) hi1 hrest
    exact ⟨s2, by simp only [run, he, hrun], by simpa only [trackingLog] using hi2⟩

/-- The positions in the log increase along the log and stay below the
position of the next call. -/
theorem trackingLog_sorted (E : Env) (h : List (Nat × Nat)) (i : Nat) (cs : List Call)
    (hs : h.Pairwise (fun p q => p.2 < q.2)) (hb : ∀ p ∈ h, p.2 < i) :
    (trackingLog E h i cs).Pairwise (fun p q => p.2 < q.2) ∧
    ∀ p ∈ trackingLog E h i cs, p.2 < i + cs.length := by
  induction cs generalizing h i with
  | nil => exact ⟨hs, by simpa using hb⟩
  | cons c cs ih =>
    have hrec : (recordCall E h i c).Pairwise (fun p q => p.2 < q.2) ∧
        ∀ p ∈ recordCall E h i c, p.2 < i + 1 := by
      cases c with
      | track o =>
        simp only [recordCall]
        split_ifs with hn
        · exact ⟨hs, fun p hp => Nat.lt_succ_of_lt (hb p hp)⟩
        · constructor
          · rw [List.pairwise_append]
            refine ⟨hs.filter _, List.pairwise_singleton _ _, ?_⟩
            intro a ha b hb1
            rw [List.mem_singleton] at hb1
            subst hb1
            exact hb a (List.mem_filter.1 ha).1
          · intro p hp
            rcases List.mem_append.1 hp with e | e
            · exact Nat.lt_succ_of_lt (hb p (List.mem_filter.1 e).1)
            · rw [List.mem_singleton] at e
              subst e
              exact Nat.lt_succ_self i
      | untrack o =>
        simp only [recordCall]
        exact ⟨hs.filter _, fun p hp => Nat.lt_succ_of_lt (hb p (List.mem_filter.1 hp).1)⟩
    obtain ⟨h1, h2⟩ := ih (recordCall E h i c) (i + 1) hrec.1 hrec.2
    refine ⟨h1, ?_⟩
    intro p hp
    have := h2 p hp
    simp only [List.length_cons]
    omega

/-- Recording a call puts no null head into the log. -/
theorem recordCall_ne_null (E : Env) (h : List (Nat × Nat)) (i : Nat) (c : Call)
    (hnn : ∀ p ∈ h, p.1 ≠ NULL) : ∀ p ∈ recordCall E h i c, p.1 ≠ NULL := by
  intro p hp
  cases c with
  | track o =>
    simp only [recordCall] at hp
    split_ifs at hp with hn
    · exact hnn p hp
    · rcases List.mem_append.1 hp with e | e
      · exact hnn p (List.mem_filter.1 e).1
      · rw [List.mem_singleton] at e
        subst e
        exact hn
  | untrack o =>
    simp only [recordCall] at hp
    exact hnn p (List.mem_filter.1 hp).1

/-- Every entry of the log either was there from the start, and no call is
about its head, or its position is that of a Track call on its head after
which no call is about that head. -/
theorem trackingLog_most_recent (E : Env) (h : List (Nat × Nat)) (i : Nat) (cs : List Call)
    (hnn : ∀ p ∈ h, p.1 ≠ NULL) :
    ∀ p ∈ trackingLog E h i cs,
      (p ∈ h ∧ ∀ c ∈ cs, callHead E c ≠ p.1) ∨
      (∃ pre o post, cs = pre ++ Call.track o :: post ∧ p.2 = i + pre.length ∧
        _Py_AS_GC E o = p.1 ∧ ∀ c ∈ post, callHead E c ≠ p.1) := by
  induction cs generalizing h i with
  | nil => intro p hp; exact Or.inl ⟨hp, by simp⟩
  | cons c cs ih =>
    intro p hp
    rcases ih (recordCall E h i c) (i + 1) (recordCall_ne_null E h i c hnn) p hp with
      ⟨hm, hno⟩ | ⟨pre, o, post, e1, e2, e3, e4⟩
    · cases c with
      | track o =>
        simp only [recordCall] at hm
        split_ifs at hm with hn
        · left
          refine ⟨hm, ?_⟩
          intro c hc
          rcases List.mem_cons.1 hc with e | e
          · subst e
            intro e3
            exact hnn p hm (by rw [← e3]; exact hn)
          · exact hno c e
        · rcases List.mem_append.1 hm with e | e
          · left
            have e' := List.mem_filter.1 e
            refine ⟨e'.1, ?_⟩
            intro c hc
            rcases List.mem_cons.1 hc with e2 | e2
            · subst e2
              have : p.1 ≠ _Py_AS_GC E o := by simpa using e'.2
              exact fun e3 => this e3.symm
            · exact hno c e2
          · right
            rw [List.mem_singleton] at e
            subst e
            exact ⟨[], o, cs, rfl, rfl, rfl, hno⟩
      | untrack o =>
        simp only [recordCall] at hm
        left
        have e' := List.mem_filter.1 hm
        refine ⟨e'.1, ?_⟩
        intro c hc
        rcases List.mem_cons.1 hc with e2 | e2
        · subst e2
          have : p.1 ≠ _Py_AS_GC E o := by simpa using e'.2
          exact fun e3 => this e3.symm
        · exact hno c e2
    · right
      refine ⟨c :: pre, o, post, by rw [e1]; rfl, ?_, e3, e4⟩
      simp only [List.length_cons]
      omega

/-- C21. In every state reached from the empty generation-0 ring by
precondition-respecting Track and Untrack calls, the run returns and the walk
along `gc_next` from the sentinel back to the sentinel lists the heads of
`trackingOrder`, the walk along `gc_prev` lists them in reverse; these heads
are exactly the heads that are not Untracked; their positions increase along
the list, and the position of each is that of a Track call on it after which
no call is about it, its most recent Track call. From such a state, Untrack
of a tracked object returns and leaves the other members in their order, both
walks agreeing, with their `gc_refs` unchanged, their `gc_next` unchanged
except for the predecessor of the removed head and their `gc_prev` unchanged
except for its successor. -/
theorem C21_ring_in_tracking_order (E : Env) (s0 : GCState) (cs : List Call)
    (h0 : InitialState s0) (hr : Respects E s0 cs) :
    ∃ s, run E s0 cs = .returned s ∧
      (∀ fuel, (trackingOrder E cs).length < fuel →
        ringMembers s fuel = some ((trackingOrder E cs).map Prod.fst) ∧
        ringMembersRev s fuel = some ((trackingOrder E cs).map Prod.fst).reverse) ∧
      (∀ g, g ≠ NULL → g ≠ s._PyGC_generation0 →
        ((s.mem g).gc_refs ≠ _PyGC_REFS_UNTRACKED ↔
          g ∈ (trackingOrder E cs).map Prod.fst)) ∧
      (trackingOrder E cs).Pairwise (fun p q => p.2 < q.2) ∧
      (∀ p ∈ trackingOrder E cs, ∃ pre o post,
        cs = pre ++ Call.track o :: post ∧ p.2 = pre.length ∧ _Py_AS_GC E o = p.1 ∧
        ∀ c ∈ post, callHead E c ≠ p.1) ∧
      (∀ o, CallPre E s (.untrack o) →
        ∃ s1, _PyObject_GC_UNTRACK E s o = .returned s1 ∧
          (∀ fuel, (trackingOrder E cs).length < fuel →
            ringMembers s1 fuel
              = some (((trackingOrder E cs).map Prod.fst).erase (_Py_AS_GC E o)) ∧
            ringMembersRev s1 fuel
              = some (((trackingOrder E cs).map Prod.fst).erase (_Py_AS_GC E o)).reverse) ∧
          (((trackingOrder E cs).map Prod.fst).erase (_Py_AS_GC E o)).Sublist
            ((trackingOrder E cs).map Prod.fst) ∧
          (∀ x, x ≠ _Py_AS_GC E o → (s1.mem x).gc_refs = (s.mem x).gc_refs) ∧
          (∀ x, x ≠ _Py_AS_GC E o → x ≠ (s.mem (_Py_AS_GC E o)).gc_prev →
            (s1.mem x).gc_next = (s.mem x).gc_next) ∧
          (∀ x, x ≠ (s.mem (_Py_AS_GC E o)).gc_next →
            (s1.mem x).gc_prev = (s.mem x).gc_prev)) := by
  obtain ⟨s, hrun, hi⟩ := run_log (h := []) 0 h0.inv hr
  have hi1 : TrackingInv s ((trackingOrder E cs).map Prod.fst) := hi
  have hlen : ((trackingOrder E cs).map Prod.fst).length = (trackingOrder E cs).length :=
    List.length_map _ _
  refine ⟨s, hrun, ?_, ?_, ?_, ?_, ?_⟩
  · intro fuel hf
    exact ⟨hi1.ring.members fuel (by omega), hi1.ring.members_rev fuel (by omega)⟩
  · intro g hg0 hgz
    rw [Ne, hi1.untracked_iff g hg0 hgz, not_not]
  · exact (trackingLog_sorted E [] 0 cs List.Pairwise.nil (by simp)).1
  · intro p hp
    rcases trackingLog_most_recent E [] 0 cs (by simp) p hp with ⟨hm, -⟩ | ⟨pre, o, post, h⟩
    · simp at hm
    · exact ⟨pre, o, post, h.1, by simpa using h.2.1, h.2.2⟩
  · intro o hc
    obtain ⟨h1, h2⟩ := hc
    obtain ⟨hg, hu⟩ := is_tracked_true h1
    have hstep := hi1.untrack_step hg h2 hu
    have hf := specUntrack_fields s (_Py_AS_GC E o)
    have hle := List.length_erase_le (_Py_AS_GC E o) ((trackingOrder E cs).map Prod.fst)
    refine ⟨_, hstep.1, ?_, List.erase_sublist _ _, ?_, ?_, ?_⟩
    · intro fuel hfuel
      exact ⟨hstep.2.ring.members fuel (by omega), hstep.2.ring.members_rev fuel (by omega)⟩
    · intro x hx
      rw [hf.refs, if_neg hx]
    · intro x hx hxp
      rw [hf.next, if_neg hx, if_neg hxp]
    · intro x hx
      rw [hf.prev, if_neg hx]

/-- Instance of C21: three objects are tracked, the middle one is untracked
and tracked again, in the plain build. Its head 200 ends up last, with the
position 4 of its second Track call. -/
theorem C21_ring_in_tracking_order_witness :
    InitialState state0 ∧
    Respects envPlain state0
      [.track 132, .track 232, .track 332, .untrack 232, .track 232] ∧
    trackingOrder envPlain [.track 132, .track 232, .track 332, .untrack 232, .track 232]
      = [(100, 0), (300, 2), (200, 4)] ∧
    ringMembers
      (run envPlain state0
        [.track 132, .track 232, .track 332, .untrack 232, .track 232]).state 4
      = some [100, 300, 200] ∧
    ringMembersRev
      (run envPlain state0
        [.track 132, .track 232, .track 332, .untrack 232, .track 232]).state 4
      = some [200, 300, 100] ∧
    ∃ s, run envPlain state0 [.track 132, .track 232, .track 332, .untrack 232, .track 232]
        = .returned s ∧
      (∀ fuel, (trackingOrder envPlain
          [.track 132, .track 232, .track 332, .untrack 232, .track 232]).length < fuel →
        ringMembers s fuel = some ((trackingOrder envPlain
          [.track 132, .track 232, .track 332, .untrack 232, .track 232]).map Prod.fst) ∧
        ringMembersRev s fuel = some ((trackingOrder envPlain
          [.track 132, .track 232, .track 332, .untrack 232, .track 232]).map
            Prod.fst).reverse) :=
  ⟨state0_initial, by decide, by decide, by decide, by decide,
    (C21_ring_in_tracking_order envPlain state0 _ state0_initial (by decide)).imp
      (fun _ h => ⟨h.1, h.2.1⟩)⟩

end ObjImpl
